import Mathlib

/-!
Verification development for the boom-core astronomical computation kernel.

The Rust sources are shallowly embedded:
* `f64` arithmetic is idealized as exact arithmetic, over `ℚ` where the code
  only uses field operations, `floor`, truncating casts and `%` (the
  calendar/time kernel `src/time.rs`), and over `ℝ` where the code uses
  transcendental functions (`src/cosmo.rs`, `src/observer.rs`).
* Rust `as i32` on a float truncates toward zero (`qtrunc` / `rtrunc` below);
  Rust `as u32` on an `i32` wraps modulo 2^32 (`u32cast`); Rust `%` on floats
  is the truncated remainder, with the sign of the dividend (`qmod` / `rmod`).
* `i32`/`u32` values are modeled as unbounded `ℤ` (none of the verified
  computations approach the 32-bit range except through the explicit
  `u32cast` wrapping points, which are kept).
-/

namespace Boom

/-- Truncation toward zero of a rational, the behavior of Rust `as i32`
on a (finite, in-range) `f64`. -/
def qtrunc (q : ℚ) : ℤ := if 0 ≤ q then ⌊q⌋ else ⌈q⌉

/-- Rust `%` on `f64` (truncated remainder, sign of the dividend),
idealized over `ℚ`. -/
def qmod (x y : ℚ) : ℚ := x - y * (qtrunc (x / y) : ℚ)

/-- Rust `as u32` applied to an `i32` value: two's-complement wrap into
`[0, 2^32)`. -/
def u32cast (i : ℤ) : ℤ := i % 4294967296

/-- The `Time` struct of `src/time.rs`: a civil UTC instant
`{year: i32, month: u32, day: u32, hour: u32, minute: u32, second: u32}`.
All fields are modeled as `ℤ`. -/
structure Time where
  year : ℤ
  month : ℤ
  day : ℤ
  hour : ℤ
  minute : ℤ
  second : ℤ
deriving DecidableEq, Repr

namespace Time

/-- `Time::new` of `src/time.rs`. -/
def new (year month day hour minute second : ℤ) : Time :=
  { year := year, month := month, day := day,
    hour := hour, minute := minute, second := second }

/-- `Time::to_jd` of `src/time.rs` (lines 294-306): the closed-form
Julian-date formula, each field cast into the `f64` model `ℚ`. -/
def to_jd (t : Time) : ℚ :=
  let year : ℚ := (t.year : ℚ)
  let month : ℚ := (t.month : ℚ)
  let day : ℚ := (t.day : ℚ)
  let hour : ℚ := (t.hour : ℚ)
  let minute : ℚ := (t.minute : ℚ)
  let second : ℚ := (t.second : ℚ)
  367 * year - (⌊(⌊year + ((month + 9) / 12)⌋ : ℚ) * 7 / 4⌋ : ℚ)
    + (⌊(275 * month) / 9⌋ : ℚ) + day + 1721013.5
    + ((hour + (minute / 60) + (second / 3600)) / 24)

/-- `Time::to_mjd` of `src/time.rs`. -/
def to_mjd (t : Time) : ℚ := t.to_jd - 2400000.5

/-- The pre-reduction Greenwich-sidereal-time polynomial: the local `gst`
value of `Time::to_gst` (`src/time.rs` lines 342-348) before the final
`% 360.0`. -/
def gstPre (t : Time) : ℚ :=
  let jd := t.to_jd
  let T := (jd - 2451545) / 36525
  280.46061837 + 360.98564736629 * (jd - 2451545)
    + 0.000387933 * T * T
    - (T * T * T) / 38710000

/-- `Time::to_gst` of `src/time.rs` (lines 342-349): the polynomial reduced
by Rust `% 360.0`. -/
def to_gst (t : Time) : ℚ := qmod (gstPre t) 360

/-- `Time::from_jd` of `src/time.rs` (lines 217-249): the
Fliegel-Van Flandern / Meeus decoding of a Julian date into a civil time.
The `as i32` casts are `qtrunc` (and Rust `i32` division `alpha / 4` is
`Int.tdiv`), the final `as u32` stores are `u32cast`. -/
def from_jd (jd : ℚ) : Time :=
  let temp : ℚ := jd + 0.5
  let z : ℤ := ⌊temp⌋
  let f : ℚ := temp - (z : ℚ)
  let a : ℤ :=
    if 2299161 < z then
      let alpha : ℤ := ⌊((z : ℚ) - 1867216.25) / 36524.25⌋
      z + 1 + alpha - Int.tdiv alpha 4
    else z
  let b : ℤ := a + 1524
  let c : ℚ := (⌊((b : ℚ) - 122.1) / 365.25⌋ : ℚ)
  let d : ℤ := qtrunc (365.25 * c)
  let e : ℤ := ⌊((b : ℚ) - (d : ℚ)) / 30.6001⌋
  let day : ℤ := b - d - qtrunc (30.6001 * (e : ℚ)) + qtrunc f
  let month : ℤ := if e < 14 then e - 1 else e - 13
  let year : ℚ := if 2 < month then c - 4716 else c - 4715
  let hour : ℤ := |qtrunc (f * 24)|
  let f1 : ℚ := f - ((hour : ℚ) / 24)
  let minute : ℤ := |qtrunc (f1 * 1440)|
  let f2 : ℚ := f1 - ((minute : ℚ) / 1440)
  let second : ℤ := |qtrunc (f2 * 86400)|
  { year := qtrunc year, month := u32cast month, day := u32cast day,
    hour := u32cast hour, minute := u32cast minute, second := u32cast second }

/-- `Time::from_mjd` of `src/time.rs`. -/
def from_mjd (mjd : ℚ) : Time := from_jd (mjd + 2400000.5)

end Time

/-- Number of days of month `m` of Gregorian year `y` (usual leap rule);
used only to state which `Time` values denote real calendar dates. -/
def daysInMonth (y m : ℤ) : ℤ :=
  if m = 2 then (if y % 4 = 0 ∧ (y % 100 ≠ 0 ∨ y % 400 = 0) then 29 else 28)
  else if m = 4 ∨ m = 6 ∨ m = 9 ∨ m = 11 then 30
  else 31

/-- A `Time` whose fields denote a real Gregorian calendar date and a real
time of day. -/
def validTime (t : Time) : Prop :=
  1 ≤ t.month ∧ t.month ≤ 12 ∧
  1 ≤ t.day ∧ t.day ≤ daysInMonth t.year t.month ∧
  0 ≤ t.hour ∧ t.hour ≤ 23 ∧
  0 ≤ t.minute ∧ t.minute ≤ 59 ∧
  0 ≤ t.second ∧ t.second ≤ 59

instance (t : Time) : Decidable (validTime t) := by unfold validTime; infer_instance

/-- The weaker validity used by the specification data model: month 1-12,
day 1-31 regardless of the month, hour 0-23, minute 0-59, second 0-59. -/
def specValidTime (t : Time) : Prop :=
  1 ≤ t.month ∧ t.month ≤ 12 ∧
  1 ≤ t.day ∧ t.day ≤ 31 ∧
  0 ≤ t.hour ∧ t.hour ≤ 23 ∧
  0 ≤ t.minute ∧ t.minute ≤ 59 ∧
  0 ≤ t.second ∧ t.second ≤ 59

instance (t : Time) : Decidable (specValidTime t) := by
  unfold specValidTime; infer_instance

/-- Chronological (lexicographic) strict order on civil times. -/
def lexLt (t1 t2 : Time) : Prop :=
  t1.year < t2.year ∨ (t1.year = t2.year ∧
    (t1.month < t2.month ∨ (t1.month = t2.month ∧
      (t1.day < t2.day ∨ (t1.day = t2.day ∧
        (t1.hour < t2.hour ∨ (t1.hour = t2.hour ∧
          (t1.minute < t2.minute ∨ (t1.minute = t2.minute ∧
            t1.second < t2.second)))))))))

instance (t1 t2 : Time) : Decidable (lexLt t1 t2) := by unfold lexLt; infer_instance

/-! ### Integer mirror of the calendar arithmetic

`to_jd` and `from_jd` compute with rational floors and truncations whose
divisors are positive, so every step has an exact integer-division mirror.
`jdnZ` mirrors the integer part of `to_jd` (shifted so that
`to_jd = jdnZ - 1/2 + seconds/86400`) and `alphaOf` .. `yearOf` mirror the
successive values `alpha`, `a`, `b`, `c`, `d`, `e`, `day`, `month`, `year`
computed by `from_jd`. All `/` below are `Int` euclidean division, which
agrees with rational `floor` division for the positive divisors involved. -/

/-- Integer part of `to_jd` shifted by +0.5: the `z` value that `from_jd`
recovers. -/
def jdnZ (y m d : ℤ) : ℤ :=
  367 * y - (7 * (y + (m + 9) / 12)) / 4 + 275 * m / 9 + d + 1721014

/-- Seconds since midnight encoded by the time-of-day fields. -/
def secsZ (t : Time) : ℤ := 3600 * t.hour + 60 * t.minute + t.second

/-- Integer mirror of the `alpha` value of `from_jd`. -/
def alphaOf (z : ℤ) : ℤ := (100 * z - 186721625) / 3652425

/-- Integer mirror of the `a` value of `from_jd` (for nonnegative `alpha`,
where Rust `i32` division agrees with euclidean division). -/
def aOf (z : ℤ) : ℤ := if 2299161 < z then z + 1 + alphaOf z - alphaOf z / 4 else z

/-- Integer mirror of the `b` value of `from_jd`. -/
def bOf (z : ℤ) : ℤ := aOf z + 1524

/-- Integer mirror of the `c` value of `from_jd`. -/
def cOf (z : ℤ) : ℤ := (100 * bOf z - 12210) / 36525

/-- Integer mirror of the `d` value of `from_jd`. -/
def ddOf (z : ℤ) : ℤ := 1461 * cOf z / 4

/-- Integer mirror of the `e` value of `from_jd`. -/
def eOf (z : ℤ) : ℤ := 10000 * (bOf z - ddOf z) / 306001

/-- Integer mirror of the `day` value of `from_jd` (for a fractional part
in `[0, 1)`, whose truncation contributes nothing). -/
def dayOf (z : ℤ) : ℤ := bOf z - ddOf z - 306001 * eOf z / 10000

/-- Integer mirror of the `month` value of `from_jd`. -/
def monthOf (z : ℤ) : ℤ := if eOf z < 14 then eOf z - 1 else eOf z - 13

/-- Integer mirror of the `year` value of `from_jd`. -/
def yearOf (z : ℤ) : ℤ := if 2 < monthOf z then cOf z - 4716 else cOf z - 4715

/-! ### Quadrature engine and cosmology model (`src/cosmo.rs`) -/

/-- The constant `C` of `src/cosmo.rs` (speed of light, km/s). -/
noncomputable def lightSpeed : ℝ := 299792.458

/-- `integrate` of `src/cosmo.rs` (lines 29-38): composite trapezoid rule.
Rust `(1..n)` is `Finset.Ico 1 n`; for `n = 0` the Rust code divides by
zero producing an `f64` infinity or NaN, which the real-valued embedding
renders through the `x / 0 = 0` convention -- in both semantics no error
condition is signaled and an ordinary value is returned. -/
noncomputable def integrate (f : ℝ → ℝ) (a b : ℝ) (n : ℕ) : ℝ :=
  let h : ℝ := (b - a) / (n : ℝ)
  let s : ℝ := ∑ i in Finset.Ico 1 n, f (a + (i : ℝ) * h)
  h / 2 * (f a + f b + 2 * s)

/-- The `Cosmo` struct of `src/cosmo.rs`. -/
structure Cosmo where
  h0 : ℝ
  omega_m : ℝ
  omega_lambda : ℝ
  omega_k : ℝ

namespace Cosmo

/-- `Cosmo::new` of `src/cosmo.rs` (lines 85-88): derives
`omega_k = 1 - omega_m - omega_lambda`. -/
noncomputable def new (h0 omega_m omega_lambda : ℝ) : Cosmo :=
  { h0 := h0, omega_m := omega_m, omega_lambda := omega_lambda,
    omega_k := 1 - omega_m - omega_lambda }

/-- `Cosmo::luminosity_distance` of `src/cosmo.rs` (lines 112-121). -/
noncomputable def luminosity_distance (c : Cosmo) (redshift : ℝ) : ℝ :=
  let integrand : ℝ → ℝ := fun z =>
    1 / Real.sqrt (c.omega_m * (1 + z) ^ 3 + c.omega_k * (1 + z) ^ 2 + c.omega_lambda)
  let d_h : ℝ := lightSpeed / c.h0
  let d_c : ℝ := d_h * integrate integrand 0 redshift 1000
  let d_m : ℝ := d_c / (1 + redshift)
  (1 + redshift) ^ 2 * d_m

/-- `Cosmo::dm` of `src/cosmo.rs` (lines 145-149): distance modulus. -/
noncomputable def dm (c : Cosmo) (z : ℝ) : ℝ :=
  let lumdist := c.luminosity_distance z
  5 * Real.logb 10 ((lumdist * 1.0e6) / 10)

/-- `Cosmo::angular_diameter_distance` of `src/cosmo.rs` (lines 172-179). -/
noncomputable def angular_diameter_distance (c : Cosmo) (z : ℝ) : ℝ :=
  let lumdist := c.luminosity_distance z
  if 0.01 < z then lumdist / (1 + z) ^ 2 else lumdist

end Cosmo

/-- The `Plank18` struct of `src/cosmo.rs` (lines 196-198). -/
structure Plank18 where
  base : Cosmo

namespace Plank18

/-- `Plank18::new` of `src/cosmo.rs` (lines 215-222). -/
noncomputable def new : Plank18 :=
  let h0 : ℝ := 67.66
  let omega_m : ℝ := 0.3103
  let omega_lambda : ℝ := 0.6897
  let omega_k : ℝ := 1 - omega_m - omega_lambda
  { base := { h0 := h0, omega_m := omega_m, omega_lambda := omega_lambda,
              omega_k := omega_k } }

/-- `Plank18::luminosity_distance` of `src/cosmo.rs` (lines 246-248). -/
noncomputable def luminosity_distance (p : Plank18) (redshift : ℝ) : ℝ :=
  p.base.luminosity_distance redshift

/-- `Plank18::dm` of `src/cosmo.rs` (lines 272-274). -/
noncomputable def dm (p : Plank18) (z : ℝ) : ℝ := p.base.dm z

/-- `Plank18::angular_diameter_distance` of `src/cosmo.rs` (lines 298-300). -/
noncomputable def angular_diameter_distance (p : Plank18) (z : ℝ) : ℝ :=
  p.base.angular_diameter_distance z

end Plank18

/-! ### Solar event solver (`src/observer.rs`), over `ℝ` -/

/-- Truncation toward zero of a real: Rust `as i32` on a finite `f64`. -/
noncomputable def rtrunc (x : ℝ) : ℤ := if 0 ≤ x then ⌊x⌋ else ⌈x⌉

/-- Rust `%` on `f64` (truncated remainder), idealized over `ℝ`. -/
noncomputable def rmod (x y : ℝ) : ℝ := x - y * (rtrunc (x / y) : ℝ)

/-- Rust `f64::to_radians`. -/
noncomputable def toRadians (x : ℝ) : ℝ := x * Real.pi / 180

/-- Rust `f64::to_degrees`. -/
noncomputable def toDegrees (x : ℝ) : ℝ := x * 180 / Real.pi

/-- `Time::from_jd` replayed over the real-valued embedding, used by the
solar event solver, whose Julian dates are transcendental reals. Identical
algorithm to `Time.from_jd`, with `rtrunc` in place of `qtrunc`. -/
noncomputable def fromJdReal (jd : ℝ) : Time :=
  let temp : ℝ := jd + 0.5
  let z : ℤ := ⌊temp⌋
  let f : ℝ := temp - (z : ℝ)
  let a : ℤ :=
    if 2299161 < z then
      let alpha : ℤ := ⌊((z : ℝ) - 1867216.25) / 36524.25⌋
      z + 1 + alpha - Int.tdiv alpha 4
    else z
  let b : ℤ := a + 1524
  let c : ℝ := (⌊((b : ℝ) - 122.1) / 365.25⌋ : ℝ)
  let d : ℤ := rtrunc (365.25 * c)
  let e : ℤ := ⌊((b : ℝ) - (d : ℝ)) / 30.6001⌋
  let day : ℤ := b - d - rtrunc (30.6001 * (e : ℝ)) + rtrunc f
  let month : ℤ := if e < 14 then e - 1 else e - 13
  let year : ℝ := if 2 < month then c - 4716 else c - 4715
  let hour : ℤ := |rtrunc (f * 24)|
  let f1 : ℝ := f - ((hour : ℝ) / 24)
  let minute : ℤ := |rtrunc (f1 * 1440)|
  let f2 : ℝ := f1 - ((minute : ℝ) / 1440)
  let second : ℤ := |rtrunc (f2 * 86400)|
  { year := rtrunc year, month := u32cast month, day := u32cast day,
    hour := u32cast hour, minute := u32cast minute, second := u32cast second }

/-- The `Observer` struct of `src/observer.rs`. -/
structure Observer where
  name : Option String
  lat : ℝ
  lon : ℝ
  elevation : ℝ

namespace Observer

/-- Step 1 of `Observer::sun_set_time` (`src/observer.rs` line 256): the
current julian day count `n` (an `f64` holding the integer `ceil` result).
The `after` argument is the resolved reference instant (the code defaults
it to `Time::now()`), `src/observer.rs` lines 249-254. -/
noncomputable def nDays (after : Time) : ℝ :=
  (⌈((after.to_jd : ℚ) : ℝ) - (2451545.0 + 0.0009) - 69.184 / 86400⌉ : ℝ)

/-- Step 2: mean solar time (`src/observer.rs` line 259). -/
noncomputable def jstar (o : Observer) (after : Time) : ℝ :=
  nDays after + 0.0009 - o.lon / 360

/-- Step 3: solar mean anomaly in degrees (`src/observer.rs` line 262). -/
noncomputable def meanAnomaly (o : Observer) (after : Time) : ℝ :=
  rmod (357.5291 + 0.98560028 * jstar o after) 360

/-- Step 4: equation of center (`src/observer.rs` line 266). -/
noncomputable def eqCenter (o : Observer) (after : Time) : ℝ :=
  let m_rad := toRadians (meanAnomaly o after)
  1.9148 * Real.sin m_rad + 0.0200 * Real.sin (2 * m_rad)
    + 0.0003 * Real.sin (3 * m_rad)

/-- Step 5: ecliptic longitude in degrees (`src/observer.rs` line 269). -/
noncomputable def eclipticLongitude (o : Observer) (after : Time) : ℝ :=
  rmod (meanAnomaly o after + eqCenter o after + 180 + 102.9372) 360

/-- Step 6: solar transit (`src/observer.rs` line 273). -/
noncomputable def jtransit (o : Observer) (after : Time) : ℝ :=
  2451545.0 + jstar o after
    + 0.0053 * Real.sin (toRadians (meanAnomaly o after))
    - 0.0069 * Real.sin (2 * toRadians (eclipticLongitude o after))

/-- Step 7: sine of the solar declination (`src/observer.rs` line 276). -/
noncomputable def deltaSin (o : Observer) (after : Time) : ℝ :=
  Real.sin (toRadians (eclipticLongitude o after)) * Real.sin (toRadians 23.4397)

/-- Step 7: cosine of the solar declination (`src/observer.rs` line 277). -/
noncomputable def deltaCos (o : Observer) (after : Time) : ℝ :=
  Real.cos (Real.arcsin (deltaSin o after))

/-- Step 8: the hour-angle cosine (`src/observer.rs` lines 280-283), the
`w0_cos` value fed to `acos`. -/
noncomputable def w0Cos (o : Observer) (after : Time) (solar_alt : ℝ) : ℝ :=
  (Real.sin (toRadians (solar_alt - 2.076 * Real.sqrt o.elevation / 60))
      - Real.sin (toRadians o.lat) * deltaSin o after)
    / (Real.cos (toRadians o.lat) * deltaCos o after)

/-- `Observer::sun_set_time` of `src/observer.rs` (lines 247-297), with the
`after` and `solar_alt` options already resolved (the code defaults them to
`Time::now()` and `-0.833`). Step 8's `acos` is modeled by `Real.arccos`;
Rust `f64::acos` returns NaN for out-of-range input, where `Real.arccos`
clamps -- in both semantics the function signals no error and
unconditionally returns a pair of `Time` values. -/
noncomputable def sun_set_time (o : Observer) (after : Time) (solar_alt : ℝ) :
    Time × Time :=
  let w0_rad := Real.arccos (w0Cos o after solar_alt)
  let w0 := toDegrees w0_rad
  let jrise := jtransit o after - w0 / 360
  let jset := jtransit o after + w0 / 360
  (fromJdReal jrise, fromJdReal jset)

end Observer

/-- The `to_jd` closed form exactly as the specification writes it
(section 4.2): `jd = 367*Y - floor(floor(Y + floor((M+9)/12))*7/4)
+ floor(275*M/9) + D + 1721013.5 + (h + m/60 + s/3600)/24`, with an inner
`floor((M+9)/12)` that the code leaves to the outer floor. -/
def specJdFormula (t : Time) : ℚ :=
  367 * (t.year : ℚ)
    - (⌊(⌊(t.year : ℚ) + (⌊((t.month : ℚ) + 9) / 12⌋ : ℚ)⌋ : ℚ) * 7 / 4⌋ : ℚ)
    + (⌊275 * (t.month : ℚ) / 9⌋ : ℚ) + (t.day : ℚ) + 1721013.5
    + (((t.hour : ℚ) + ((t.minute : ℚ) / 60) + ((t.second : ℚ) / 3600)) / 24)

/-! ## Auxiliary lemmas -/

theorem floor_intCast_div (a b : ℤ) (hb : 0 < b) : ⌊(a : ℚ) / (b : ℚ)⌋ = a / b := by
  have hbn : (b.toNat : ℤ) = b := Int.toNat_of_nonneg hb.le
  have h2 : ((b.toNat : ℕ) : ℚ) = (b : ℚ) := by exact_mod_cast hbn
  have h3 := Rat.floor_intCast_div_natCast a b.toNat
  rw [h2, hbn] at h3
  exact h3

theorem qtrunc_eq_floor (q : ℚ) (h : 0 ≤ q) : qtrunc q = ⌊q⌋ := if_pos h

theorem qtrunc_intCast (a : ℤ) : qtrunc ((a : ℤ) : ℚ) = a := by
  unfold qtrunc
  split_ifs <;> simp

theorem u32cast_small (x : ℤ) (h0 : 0 ≤ x) (h1 : x < 4294967296) : u32cast x = x := by
  unfold u32cast; omega

theorem floor_alpha_div (x : ℤ) :
    ⌊((x : ℚ) - 1867216.25) / 36524.25⌋ = (100 * x - 186721625) / 3652425 := by
  rw [show ((x : ℚ) - 1867216.25) / 36524.25
      = ((100 * x - 186721625 : ℤ) : ℚ) / ((3652425 : ℤ) : ℚ) by
    rw [div_eq_div_iff (by norm_num) (by norm_num)]; push_cast; ring]
  exact floor_intCast_div _ _ (by norm_num)

theorem floor_c_div (x : ℤ) :
    ⌊((x : ℚ) - 122.1) / 365.25⌋ = (100 * x - 12210) / 36525 := by
  rw [show ((x : ℚ) - 122.1) / 365.25
      = ((100 * x - 12210 : ℤ) : ℚ) / ((36525 : ℤ) : ℚ) by
    rw [div_eq_div_iff (by norm_num) (by norm_num)]; push_cast; ring]
  exact floor_intCast_div _ _ (by norm_num)

theorem qtrunc_d_mul (c : ℤ) (hc : 0 ≤ c) :
    qtrunc (365.25 * (c : ℚ)) = 1461 * c / 4 := by
  rw [show (365.25 : ℚ) * (c : ℚ) = ((1461 * c : ℤ) : ℚ) / ((4 : ℤ) : ℚ) by push_cast; ring]
  rw [qtrunc_eq_floor _ (div_nonneg (by exact_mod_cast (by omega : (0:ℤ) ≤ 1461 * c)) (by norm_num))]
  exact floor_intCast_div _ _ (by norm_num)

theorem floor_e_div (b d : ℤ) :
    ⌊((b : ℚ) - (d : ℚ)) / 30.6001⌋ = 10000 * (b - d) / 306001 := by
  rw [show ((b : ℚ) - (d : ℚ)) / 30.6001
      = ((10000 * (b - d) : ℤ) : ℚ) / ((306001 : ℤ) : ℚ) by
    rw [div_eq_div_iff (by norm_num) (by norm_num)]; push_cast; ring]
  exact floor_intCast_div _ _ (by norm_num)

theorem qtrunc_day_mul (e : ℤ) (he : 0 ≤ e) :
    qtrunc (30.6001 * (e : ℚ)) = 306001 * e / 10000 := by
  rw [show (30.6001 : ℚ) * (e : ℚ) = ((306001 * e : ℤ) : ℚ) / ((10000 : ℤ) : ℚ) by push_cast; ring]
  rw [qtrunc_eq_floor _ (div_nonneg (by exact_mod_cast (by omega : (0:ℤ) ≤ 306001 * e)) (by norm_num))]
  exact floor_intCast_div _ _ (by norm_num)

/-- `to_jd` splits into the integer day number `jdnZ` (shifted by the 0.5
of the Julian epoch) plus the seconds-of-day fraction. -/
theorem to_jd_eq (t : Time) :
    t.to_jd = (jdnZ t.year t.month t.day : ℚ) - 1/2 + (secsZ t : ℚ) / 86400 := by
  simp only [Time.to_jd, jdnZ, secsZ]
  rw [show (t.year : ℚ) + (((t.month : ℚ) + 9) / 12)
      = (t.year : ℚ) + ((t.month + 9 : ℤ) : ℚ) / ((12 : ℤ) : ℚ) by push_cast; ring]
  rw [Int.floor_int_add, floor_intCast_div _ _ (by norm_num)]
  rw [show (((t.year + (t.month + 9) / 12 : ℤ) : ℚ) * 7 / 4)
      = ((7 * (t.year + (t.month + 9) / 12) : ℤ) : ℚ) / ((4 : ℤ) : ℚ) by push_cast; ring]
  rw [floor_intCast_div _ _ (by norm_num)]
  rw [show (275 * (t.month : ℚ) / 9) = ((275 * t.month : ℤ) : ℚ) / ((9 : ℤ) : ℚ) by
    push_cast; ring]
  rw [floor_intCast_div _ _ (by norm_num)]
  push_cast
  ring

set_option maxHeartbeats 1000000 in
/-- On an input of the form `K - 1/2 + seconds/86400` with `K` in the range
of day numbers of the years 1901-2099, `from_jd` computes exactly the
integer mirror pipeline on `K` and decodes the time of day exactly. -/
theorem from_jd_split (K hh mm ss : ℤ)
    (hK1 : 2415386 ≤ K) (hK2 : K ≤ 2488069)
    (hh0 : 0 ≤ hh) (hh1 : hh ≤ 23) (hmm0 : 0 ≤ mm) (hmm1 : mm ≤ 59)
    (hss0 : 0 ≤ ss) (hss1 : ss ≤ 59) :
    Time.from_jd ((K : ℚ) - 1/2 + ((3600 * hh + 60 * mm + ss : ℤ) : ℚ) / 86400) =
      { year := yearOf K, month := u32cast (monthOf K), day := u32cast (dayOf K),
        hour := u32cast hh, minute := u32cast mm, second := u32cast ss } := by
  have hS0 : (0 : ℤ) ≤ 3600 * hh + 60 * mm + ss := by omega
  have hS1 : (3600 * hh + 60 * mm + ss : ℤ) ≤ 86399 := by omega
  have hF0 : (0 : ℚ) ≤ ((3600 * hh + 60 * mm + ss : ℤ) : ℚ) / 86400 := by
    apply div_nonneg _ (by norm_num)
    exact_mod_cast hS0
  have hF1 : ((3600 * hh + 60 * mm + ss : ℤ) : ℚ) / 86400 < 1 := by
    rw [div_lt_one (by norm_num)]
    exact_mod_cast lt_of_le_of_lt hS1 (by norm_num)
  simp only [Time.from_jd]
  rw [show ((K : ℚ) - 1/2 + ((3600 * hh + 60 * mm + ss : ℤ) : ℚ) / 86400) + 0.5
      = (K : ℚ) + ((3600 * hh + 60 * mm + ss : ℤ) : ℚ) / 86400 by norm_num; ring]
  rw [show ⌊(K : ℚ) + ((3600 * hh + 60 * mm + ss : ℤ) : ℚ) / 86400⌋ = K by
    rw [Int.floor_int_add, Int.floor_eq_zero_iff.mpr ⟨hF0, hF1⟩, add_zero]]
  rw [show (K : ℚ) + ((3600 * hh + 60 * mm + ss : ℤ) : ℚ) / 86400 - (K : ℚ)
      = ((3600 * hh + 60 * mm + ss : ℤ) : ℚ) / 86400 by ring]
  rw [if_pos (show (2299161 : ℤ) < K by omega)]
  rw [floor_alpha_div K]
  have halpha0 : (0 : ℤ) ≤ (100 * K - 186721625) / 3652425 :=
    Int.ediv_nonneg (by omega) (by norm_num)
  rw [Int.tdiv_eq_ediv halpha0 (by norm_num)]
  rw [floor_c_div]
  have hc0 : (0 : ℤ) ≤ (100 * (K + 1 + (100 * K - 186721625) / 3652425
      - (100 * K - 186721625) / 3652425 / 4 + 1524) - 12210) / 36525 :=
    Int.ediv_nonneg (by omega) (by norm_num)
  rw [qtrunc_d_mul _ hc0]
  rw [floor_e_div]
  have he0 : (0 : ℤ) ≤ 10000 * (K + 1 + (100 * K - 186721625) / 3652425
      - (100 * K - 186721625) / 3652425 / 4 + 1524
      - 1461 * ((100 * (K + 1 + (100 * K - 186721625) / 3652425
          - (100 * K - 186721625) / 3652425 / 4 + 1524) - 12210) / 36525) / 4) / 306001 := by
    apply Int.ediv_nonneg _ (by norm_num)
    omega
  rw [qtrunc_day_mul _ he0]
  rw [show qtrunc (((3600 * hh + 60 * mm + ss : ℤ) : ℚ) / 86400) = 0 by
    rw [qtrunc_eq_floor _ hF0, Int.floor_eq_zero_iff.mpr ⟨hF0, hF1⟩]]
  rw [add_zero]
  rw [show ((3600 * hh + 60 * mm + ss : ℤ) : ℚ) / 86400 * 24
      = ((3600 * hh + 60 * mm + ss : ℤ) : ℚ) / ((3600 : ℤ) : ℚ) by push_cast; ring]
  rw [qtrunc_eq_floor _ (div_nonneg (by exact_mod_cast hS0) (by norm_num))]
  rw [floor_intCast_div _ _ (by norm_num)]
  rw [show (3600 * hh + 60 * mm + ss : ℤ) / 3600 = hh by omega]
  rw [abs_of_nonneg hh0]
  rw [show ((3600 * hh + 60 * mm + ss : ℤ) : ℚ) / 86400 - (hh : ℚ) / 24
      = ((60 * mm + ss : ℤ) : ℚ) / ((86400 : ℤ) : ℚ) by push_cast; ring]
  rw [show ((60 * mm + ss : ℤ) : ℚ) / ((86400 : ℤ) : ℚ) * 1440
      = ((60 * mm + ss : ℤ) : ℚ) / ((60 : ℤ) : ℚ) by push_cast; ring]
  rw [qtrunc_eq_floor _ (div_nonneg (by exact_mod_cast (by omega : (0:ℤ) ≤ 60 * mm + ss)) (by norm_num))]
  rw [floor_intCast_div _ _ (by norm_num)]
  rw [show (60 * mm + ss : ℤ) / 60 = mm by omega]
  rw [abs_of_nonneg hmm0]
  rw [show ((60 * mm + ss : ℤ) : ℚ) / ((86400 : ℤ) : ℚ) - (mm : ℚ) / 1440
      = ((ss : ℤ) : ℚ) / ((86400 : ℤ) : ℚ) by push_cast; ring]
  rw [show ((ss : ℤ) : ℚ) / ((86400 : ℤ) : ℚ) * 86400 = ((ss : ℤ) : ℚ) by push_cast; ring]
  rw [qtrunc_intCast, abs_of_nonneg hss0]
  rw [apply_ite qtrunc]
  rw [show ((((100 * (K + 1 + (100 * K - 186721625) / 3652425
      - (100 * K - 186721625) / 3652425 / 4 + 1524) - 12210) / 36525 : ℤ) : ℚ) - 4716)
      = (((100 * (K + 1 + (100 * K - 186721625) / 3652425
      - (100 * K - 186721625) / 3652425 / 4 + 1524) - 12210) / 36525 - 4716 : ℤ) : ℚ) by push_cast; ring]
  rw [show ((((100 * (K + 1 + (100 * K - 186721625) / 3652425
      - (100 * K - 186721625) / 3652425 / 4 + 1524) - 12210) / 36525 : ℤ) : ℚ) - 4715)
      = (((100 * (K + 1 + (100 * K - 186721625) / 3652425
      - (100 * K - 186721625) / 3652425 / 4 + 1524) - 12210) / 36525 - 4715 : ℤ) : ℚ) by push_cast; ring]
  rw [qtrunc_intCast, qtrunc_intCast]
  simp only [yearOf, monthOf, dayOf, eOf, ddOf, cOf, bOf, aOf, alphaOf]
  rw [if_pos (show (2299161 : ℤ) < K by omega)]

/-- Range of the day number `jdnZ` over the years 1901-2099. -/
theorem jdnZ_bounds (y m d : ℤ) (hy1 : 1901 ≤ y) (hy2 : y ≤ 2099)
    (hm1 : 1 ≤ m) (hm2 : m ≤ 12) (hd1 : 1 ≤ d) (hd2 : d ≤ daysInMonth y m) :
    2415386 ≤ jdnZ y m d ∧ jdnZ y m d ≤ 2488069 := by
  simp only [daysInMonth] at hd2
  unfold jdnZ
  interval_cases m <;> split_ifs at hd2 <;> omega

set_option maxHeartbeats 2000000 in
/-- The integer mirror of the Fliegel decoding inverts `jdnZ` on every
calendar-valid date of the years 1901-2099. -/
theorem decodeFliegel (y m d : ℤ) (hy1 : 1901 ≤ y) (hy2 : y ≤ 2099)
    (hm1 : 1 ≤ m) (hm2 : m ≤ 12) (hd1 : 1 ≤ d) (hd2 : d ≤ daysInMonth y m) :
    yearOf (jdnZ y m d) = y ∧ monthOf (jdnZ y m d) = m ∧ dayOf (jdnZ y m d) = d := by
  obtain ⟨z, hz⟩ : ∃ z, z = jdnZ y m d := ⟨_, rfl⟩
  rw [← hz]
  have hzb := jdnZ_bounds y m d hy1 hy2 hm1 hm2 hd1 hd2
  rw [← hz] at hzb
  simp only [daysInMonth] at hd2
  have ha : aOf z = z + 13 := by
    unfold aOf
    rw [if_pos (show 2299161 < z by omega)]
    unfold alphaOf
    omega
  have hb : bOf z = z + 1537 := by unfold bOf; rw [ha]; ring
  have hcchar : 36525 * cOf z ≤ 100 * z + 141490 ∧
      100 * z + 141490 < 36525 * cOf z + 36525 := by
    unfold cOf; rw [hb]; omega
  have hc : (3 ≤ m → cOf z = y + 4716) ∧ (m ≤ 2 → cOf z = y + 4715) := by
    interval_cases m <;> simp only [jdnZ] at hz <;> split_ifs at hd2 <;> omega
  have hddchar : 4 * ddOf z ≤ 1461 * cOf z ∧ 1461 * cOf z < 4 * ddOf z + 4 := by
    unfold ddOf; omega
  have hechar : 306001 * eOf z ≤ 10000 * (z + 1537 - ddOf z) ∧
      10000 * (z + 1537 - ddOf z) < 306001 * eOf z + 306001 := by
    unfold eOf; rw [hb]; omega
  have he : (3 ≤ m → eOf z = m + 1) ∧ (m ≤ 2 → eOf z = m + 13) := by
    interval_cases m <;> simp only [jdnZ] at hz <;> split_ifs at hd2 <;> omega
  refine ⟨?_, ?_, ?_⟩
  · unfold yearOf monthOf
    split_ifs <;> omega
  · unfold monthOf
    split_ifs <;> omega
  · unfold dayOf
    rw [hb]
    interval_cases m <;> simp only [jdnZ] at hz <;> split_ifs at hd2 <;> omega

/-- The round trip `from_jd (to_jd t) = t` for every calendar-valid civil
time with year in 1901-2099 (the range on which the simplified `to_jd`
closed form and the Gregorian branch of `from_jd` are mutually inverse). -/
theorem roundtrip_valid (t : Time) (hv : validTime t)
    (hy1 : 1901 ≤ t.year) (hy2 : t.year ≤ 2099) :
    Time.from_jd t.to_jd = t := by
  obtain ⟨hm1, hm2, hd1, hd2, hh0, hh1, hmi0, hmi1, hs0, hs1⟩ := hv
  have hK := jdnZ_bounds t.year t.month t.day hy1 hy2 hm1 hm2 hd1 hd2
  have hdec := decodeFliegel t.year t.month t.day hy1 hy2 hm1 hm2 hd1 hd2
  rw [to_jd_eq]
  rw [show (secsZ t : ℚ) = ((3600 * t.hour + 60 * t.minute + t.second : ℤ) : ℚ) from rfl]
  rw [from_jd_split _ _ _ _ hK.1 hK.2 hh0 hh1 hmi0 hmi1 hs0 hs1]
  have hdim : daysInMonth t.year t.month ≤ 31 := by unfold daysInMonth; split_ifs <;> omega
  rw [hdec.1, hdec.2.1, hdec.2.2,
      u32cast_small t.month (by omega) (by omega),
      u32cast_small t.day (by omega) (by omega),
      u32cast_small t.hour (by omega) (by omega),
      u32cast_small t.minute (by omega) (by omega),
      u32cast_small t.second (by omega) (by omega)]

set_option maxHeartbeats 4000000 in
/-- The integer day number `jdnZ` is strictly increasing in the
lexicographic order on calendar-valid dates (any year). -/
theorem jdnZ_mono (y1 m1 d1 y2 m2 d2 : ℤ)
    (ha1 : 1 ≤ m1) (ha2 : m1 ≤ 12) (ha3 : 1 ≤ d1) (ha4 : d1 ≤ daysInMonth y1 m1)
    (hb1 : 1 ≤ m2) (hb2 : m2 ≤ 12) (hb3 : 1 ≤ d2) (hb4 : d2 ≤ daysInMonth y2 m2)
    (hlt : y1 < y2 ∨ (y1 = y2 ∧ (m1 < m2 ∨ (m1 = m2 ∧ d1 < d2)))) :
    jdnZ y1 m1 d1 < jdnZ y2 m2 d2 := by
  simp only [daysInMonth] at ha4 hb4
  unfold jdnZ
  interval_cases m1 <;> interval_cases m2 <;> split_ifs at ha4 hb4 <;> omega

/-- `to_jd` is strictly monotone on calendar-valid civil times. -/
theorem to_jd_mono (t1 t2 : Time) (hv1 : validTime t1) (hv2 : validTime t2)
    (hlt : lexLt t1 t2) : t1.to_jd < t2.to_jd := by
  obtain ⟨ha1, ha2, ha3, ha4, ha5, ha6, ha7, ha8, ha9, ha10⟩ := hv1
  obtain ⟨hb1, hb2, hb3, hb4, hb5, hb6, hb7, hb8, hb9, hb10⟩ := hv2
  have key : (t1.year < t2.year ∨ (t1.year = t2.year ∧
        (t1.month < t2.month ∨ (t1.month = t2.month ∧ t1.day < t2.day)))) ∨
      (t1.year = t2.year ∧ t1.month = t2.month ∧ t1.day = t2.day ∧
        secsZ t1 < secsZ t2) := by
    unfold lexLt at hlt
    unfold secsZ
    omega
  rw [to_jd_eq, to_jd_eq]
  have hs1 : (0 : ℤ) ≤ secsZ t1 ∧ secsZ t1 ≤ 86399 := by unfold secsZ; omega
  have hs2 : (0 : ℤ) ≤ secsZ t2 ∧ secsZ t2 ≤ 86399 := by unfold secsZ; omega
  rcases key with hdate | ⟨hy, hm, hd, hsecs⟩
  · have hj := jdnZ_mono t1.year t1.month t1.day t2.year t2.month t2.day
      ha1 ha2 ha3 ha4 hb1 hb2 hb3 hb4 hdate
    have c1 : (jdnZ t1.year t1.month t1.day : ℚ) + 1 ≤ (jdnZ t2.year t2.month t2.day : ℚ) := by
      exact_mod_cast hj
    have c2 : (secsZ t1 : ℚ) / 86400 < 1 := by
      rw [div_lt_one (by norm_num)]
      exact_mod_cast lt_of_le_of_lt hs1.2 (by norm_num)
    have c3 : (0 : ℚ) ≤ (secsZ t2 : ℚ) / 86400 := by
      apply div_nonneg _ (by norm_num)
      exact_mod_cast hs2.1
    linarith
  · rw [hy, hm, hd]
    have : (secsZ t1 : ℚ) < (secsZ t2 : ℚ) := by exact_mod_cast hsecs
    have h86 : (0 : ℚ) < 86400 := by norm_num
    have := (div_lt_div_iff_of_pos_right h86).mpr this
    linarith

/-- Bounds of the truncated remainder against a positive modulus, for a
nonnegative dividend. -/
theorem qmod_bounds_pos (x y : ℚ) (hy : 0 < y) (hx : 0 ≤ x) :
    0 ≤ qmod x y ∧ qmod x y < y := by
  unfold qmod
  rw [qtrunc_eq_floor _ (div_nonneg hx hy.le)]
  have hxy : y * (x / y) = x := by field_simp
  have h1 : (⌊x / y⌋ : ℚ) ≤ x / y := Int.floor_le _
  have h2 : x / y < (⌊x / y⌋ : ℚ) + 1 := Int.lt_floor_add_one _
  have h3 : y * (⌊x / y⌋ : ℚ) ≤ y * (x / y) := by
    apply mul_le_mul_of_nonneg_left h1 hy.le
  have h4 : y * (x / y) < y * ((⌊x / y⌋ : ℚ) + 1) := by
    apply mul_lt_mul_of_pos_left h2 hy
  rw [hxy] at h3 h4
  constructor <;> nlinarith

/-- Bounds of the truncated remainder against a positive modulus, for a
negative dividend. -/
theorem qmod_bounds_neg (x y : ℚ) (hy : 0 < y) (hx : x < 0) :
    -y < qmod x y ∧ qmod x y ≤ 0 := by
  unfold qmod qtrunc
  rw [if_neg (by simp only [not_le]; exact div_neg_of_neg_of_pos hx hy)]
  have hxy : y * (x / y) = x := by field_simp
  have h1 : x / y ≤ (⌈x / y⌉ : ℚ) := Int.le_ceil _
  have h2 : (⌈x / y⌉ : ℚ) < x / y + 1 := Int.ceil_lt_add_one _
  have h3 : y * (x / y) ≤ y * (⌈x / y⌉ : ℚ) := by
    apply mul_le_mul_of_nonneg_left h1 hy.le
  have h4 : y * (⌈x / y⌉ : ℚ) < y * (x / y + 1) := by
    apply mul_lt_mul_of_pos_left h2 hy
  rw [hxy] at h3
  constructor <;> nlinarith

/-! ## Claim theorems -/

/-- C1 (counterexample): the round-trip claim fails at the concrete input
`CivilTime(2024, 4, 31, 0, 0, 0)`, which satisfies the claimed validity
(month 1-12, day 1-31, time fields in range, year in the targeted range):
April has 30 days, `to_jd` maps April 31 and May 1 to the same Julian date,
and `from_jd` returns May 1, not the original value. -/
theorem c1_roundtrip_counterexample :
    specValidTime (Time.new 2024 4 31 0 0 0) ∧
    1901 ≤ (Time.new 2024 4 31 0 0 0).year ∧ (Time.new 2024 4 31 0 0 0).year ≤ 2099 ∧
    Time.from_jd (Time.new 2024 4 31 0 0 0).to_jd ≠ Time.new 2024 4 31 0 0 0 := by
  refine ⟨by decide, by decide, by decide, ?_⟩
  have h1 : (Time.new 2024 4 31 0 0 0).to_jd = (Time.new 2024 5 1 0 0 0).to_jd := by
    rw [to_jd_eq, to_jd_eq]
    norm_num [jdnZ, secsZ, Time.new]
  rw [h1, roundtrip_valid _ (by decide) (by decide) (by decide)]
  decide

/-- C1 (amended): for every calendar-valid CivilTime (day within the actual
length of the month, leap years included) with year in 1901-2099,
`from_jd (to_jd t)` reproduces `t` field-for-field. -/
theorem c1_roundtrip (t : Time) (hv : validTime t)
    (hy1 : 1901 ≤ t.year) (hy2 : t.year ≤ 2099) :
    Time.from_jd t.to_jd = t :=
  roundtrip_valid t hv hy1 hy2

/-- C1 (witness): the round trip at `CivilTime(2024, 8, 24, 6, 35, 34)`. -/
theorem c1_roundtrip_witness :
    validTime (Time.new 2024 8 24 6 35 34) ∧
    1901 ≤ (Time.new 2024 8 24 6 35 34).year ∧ (Time.new 2024 8 24 6 35 34).year ≤ 2099 ∧
    Time.from_jd (Time.new 2024 8 24 6 35 34).to_jd = Time.new 2024 8 24 6 35 34 :=
  ⟨by decide, by decide, by decide,
    c1_roundtrip (Time.new 2024 8 24 6 35 34) (by decide) (by decide) (by decide)⟩

/-- C3 (counterexample): `integrate` with step count `n = 0` does not fail
with any error condition -- it has no error path.  It divides by zero
computing `h = (b - a) / 0` (an `f64` infinity in Rust, `0` in the exact
embedding where `x / 0 = 0`) and returns the resulting ordinary value. -/
theorem c3_integrate_zero_counterexample :
    integrate (fun x => x) 0 1 0 = 0 := by
  unfold integrate
  norm_num

/-- C3 (amended): `integrate(f, a, b, 0)` performs no validation and signals
no error: the empty interior sum and the division by zero in `h` make it
return an ordinary value for every `f`, `a`, `b` (the value `0` in the exact
embedding, standing for the `f64` infinity/NaN of the Rust code). -/
theorem c3_integrate_zero (f : ℝ → ℝ) (a b : ℝ) : integrate f a b 0 = 0 := by
  unfold integrate
  norm_num

/-- C4 (counterexample): `to_gst` is negative for instants before the J2000
epoch: at `CivilTime(1990, 1, 1, 0, 0, 0)` the pre-reduction polynomial is
negative and Rust `%` keeps the dividend sign, so the result is not in
`[0, 360)`. -/
theorem c4_gst_counterexample : (Time.new 1990 1 1 0 0 0).to_gst < 0 := by
  unfold Time.to_gst qmod
  have hg : Time.gstPre (Time.new 1990 1 1 0 0 0)
      = -1020565627003815273709 / 774200000000000 := by
    unfold Time.gstPre
    rw [show (Time.new 1990 1 1 0 0 0).to_jd = 4895785/2 by
      rw [to_jd_eq]; norm_num [jdnZ, secsZ, Time.new]]
    norm_num
  rw [hg]
  rw [show qtrunc ((-1020565627003815273709 / 774200000000000 : ℚ) / 360) = -3661 by
    unfold qtrunc
    rw [if_neg (by norm_num)]
    rw [Int.ceil_eq_iff]
    constructor <;> norm_num]
  norm_num

/-- C4 (amended): `to_gst` reduces the polynomial with the Rust truncated
remainder, so its value lies in `(-360, 360)`: in `[0, 360)` whenever the
pre-reduction polynomial `gstPre` is nonnegative (instants at or after the
point where it changes sign, near J2000), and in `(-360, 0]` when `gstPre`
is negative (earlier instants). -/
theorem c4_gst_range (t : Time) :
    (0 ≤ Time.gstPre t → 0 ≤ t.to_gst ∧ t.to_gst < 360) ∧
    (Time.gstPre t < 0 → -360 < t.to_gst ∧ t.to_gst ≤ 0) := by
  unfold Time.to_gst
  exact ⟨fun h => qmod_bounds_pos _ _ (by norm_num) h,
         fun h => qmod_bounds_neg _ _ (by norm_num) h⟩

/-- C4 (witness): at `CivilTime(2024, 8, 24, 6, 35, 34)` the pre-reduction
value is nonnegative and `to_gst` lies in `[0, 360)`. -/
theorem c4_gst_range_witness :
    0 ≤ Time.gstPre (Time.new 2024 8 24 6 35 34) ∧
    0 ≤ (Time.new 2024 8 24 6 35 34).to_gst ∧
    (Time.new 2024 8 24 6 35 34).to_gst < 360 := by
  have hpre : 0 ≤ Time.gstPre (Time.new 2024 8 24 6 35 34) := by
    unfold Time.gstPre
    rw [show (Time.new 2024 8 24 6 35 34).to_jd = 106295620667/43200 by
      rw [to_jd_eq]; norm_num [jdnZ, secsZ, Time.new]]
    norm_num
  exact ⟨hpre, (c4_gst_range (Time.new 2024 8 24 6 35 34)).1 hpre⟩

/-- C5: `to_jd` computes exactly the specified closed-form
proleptic-Gregorian formula, and at `CivilTime(2024, 8, 24, 6, 35, 34)` its
value differs from 2460546.774699074 by less than 1e-9. -/
theorem c5_to_jd_formula :
    (∀ t : Time, t.to_jd = specJdFormula t) ∧
    |(Time.new 2024 8 24 6 35 34).to_jd - 2460546.774699074| < 1 / 1000000000 := by
  constructor
  · intro t
    simp only [Time.to_jd, specJdFormula]
    rw [show (275 * (t.month : ℚ)) / 9 = 275 * (t.month : ℚ) / 9 by ring]
    rw [show (⌊(t.year : ℚ) + (((t.month : ℚ) + 9) / 12)⌋ : ℤ)
        = ⌊(t.year : ℚ) + (⌊((t.month : ℚ) + 9) / 12⌋ : ℚ)⌋ by
      rw [Int.floor_int_add]
      rw [show (t.year : ℚ) + (⌊((t.month : ℚ) + 9) / 12⌋ : ℚ)
          = ((t.year + ⌊((t.month : ℚ) + 9) / 12⌋ : ℤ) : ℚ) by push_cast; ring]
      rw [Int.floor_intCast]]
  · rw [show (Time.new 2024 8 24 6 35 34).to_jd = 106295620667/43200 by
      rw [to_jd_eq]; norm_num [jdnZ, secsZ, Time.new]]
    norm_num
    rw [abs_of_pos (by norm_num)]
    norm_num

/-- C6: `angular_diameter_distance` returns `luminosity_distance z`
unmodified when `z ≤ 0.01` and `luminosity_distance z / (1+z)^2` when
`0.01 < z` -- the branch boundary is the strict comparison at exactly
`z = 0.01`, for every `Cosmo` parameter set. -/
theorem c6_angular_diameter_branch (c : Cosmo) (z : ℝ) :
    (z ≤ 0.01 → c.angular_diameter_distance z = c.luminosity_distance z) ∧
    (0.01 < z → c.angular_diameter_distance z
        = c.luminosity_distance z / (1 + z) ^ 2) := by
  unfold Cosmo.angular_diameter_distance
  constructor
  · intro h
    rw [if_neg (not_lt.mpr h)]
  · intro h
    rw [if_pos h]

/-- C6 (witness): the branch at the boundary `z = 0.01` (unmodified) and at
`z = 0.02` (divided), for the Planck18 parameters. -/
theorem c6_angular_diameter_branch_witness :
    ((0.01 : ℝ) ≤ 0.01 ∧
      (Cosmo.new 67.66 0.3103 0.6897).angular_diameter_distance 0.01
        = (Cosmo.new 67.66 0.3103 0.6897).luminosity_distance 0.01) ∧
    ((0.01 : ℝ) < 0.02 ∧
      (Cosmo.new 67.66 0.3103 0.6897).angular_diameter_distance 0.02
        = (Cosmo.new 67.66 0.3103 0.6897).luminosity_distance 0.02 / (1 + 0.02) ^ 2) :=
  ⟨⟨by norm_num, (c6_angular_diameter_branch (Cosmo.new 67.66 0.3103 0.6897) 0.01).1 (by norm_num)⟩,
   ⟨by norm_num, (c6_angular_diameter_branch (Cosmo.new 67.66 0.3103 0.6897) 0.02).2 (by norm_num)⟩⟩

/-- C8 (counterexample): under the specification data model validity
(day 1-31 for every month), `to_jd` is not strictly increasing:
`CivilTime(2024, 4, 31)` precedes `CivilTime(2024, 5, 1)` lexicographically
but both map to the same Julian date. -/
theorem c8_mono_counterexample :
    specValidTime (Time.new 2024 4 31 0 0 0) ∧
    specValidTime (Time.new 2024 5 1 0 0 0) ∧
    lexLt (Time.new 2024 4 31 0 0 0) (Time.new 2024 5 1 0 0 0) ∧
    ¬ ((Time.new 2024 4 31 0 0 0).to_jd < (Time.new 2024 5 1 0 0 0).to_jd) := by
  refine ⟨by decide, by decide, by decide, ?_⟩
  have h1 : (Time.new 2024 4 31 0 0 0).to_jd = (Time.new 2024 5 1 0 0 0).to_jd := by
    rw [to_jd_eq, to_jd_eq]
    norm_num [jdnZ, secsZ, Time.new]
  rw [h1]
  exact lt_irrefl _

/-- C8 (amended): `to_jd` is strictly increasing in civil time on
calendar-valid CivilTimes (day within the actual month length): if `t1` is
chronologically earlier than `t2` in the lexicographic order then
`to_jd t1 < to_jd t2`. -/
theorem c8_to_jd_mono (t1 t2 : Time) (hv1 : validTime t1) (hv2 : validTime t2)
    (hlt : lexLt t1 t2) : t1.to_jd < t2.to_jd :=
  to_jd_mono t1 t2 hv1 hv2 hlt

/-- C8 (witness): strict monotonicity across a month boundary. -/
theorem c8_to_jd_mono_witness :
    validTime (Time.new 2024 4 30 23 59 59) ∧ validTime (Time.new 2024 5 1 0 0 0) ∧
    lexLt (Time.new 2024 4 30 23 59 59) (Time.new 2024 5 1 0 0 0) ∧
    (Time.new 2024 4 30 23 59 59).to_jd < (Time.new 2024 5 1 0 0 0).to_jd :=
  ⟨by decide, by decide, by decide,
    c8_to_jd_mono (Time.new 2024 4 30 23 59 59) (Time.new 2024 5 1 0 0 0)
      (by decide) (by decide) (by decide)⟩

/-- C9: `integrate(f, a, a, n)` is exactly `0` for every integrand `f`,
bound `a` and step count `n > 0`: the step `h = (a - a)/n` is zero, so the
trapezoid sum collapses to zero. -/
theorem c9_integrate_degenerate (f : ℝ → ℝ) (a : ℝ) (n : ℕ) (hn : 0 < n) :
    integrate f a a n = 0 := by
  unfold integrate
  simp

/-- C9 (witness): `integrate(id, 1, 1, 3) = 0`. -/
theorem c9_integrate_degenerate_witness :
    0 < 3 ∧ integrate (fun x => x) 1 1 3 = 0 :=
  ⟨by norm_num, c9_integrate_degenerate (fun x => x) 1 3 (by norm_num)⟩

/-- C10: the `Plank18` preset is definitionally the generic model at
`(67.66, 0.3103, 0.6897)`: its `base` has exactly the fields produced by
`Cosmo::new` (including the derived `omega_k`), and its three methods
delegate to the base, so they agree with the generic model at every
redshift. -/
theorem c10_plank18_refines :
    Plank18.new.base = Cosmo.new 67.66 0.3103 0.6897 ∧
    (∀ z : ℝ, Plank18.new.luminosity_distance z
        = (Cosmo.new 67.66 0.3103 0.6897).luminosity_distance z ∧
      Plank18.new.dm z = (Cosmo.new 67.66 0.3103 0.6897).dm z ∧
      Plank18.new.angular_diameter_distance z
        = (Cosmo.new 67.66 0.3103 0.6897).angular_diameter_distance z) :=
  ⟨rfl, fun _ => ⟨rfl, rfl, rfl⟩⟩

set_option maxHeartbeats 1000000 in
/-- C2 (counterexample): at the equator (lat 0, lon 0, elevation 0), for
the reference instant 2024-09-10T03:00:00 and the solar-altitude threshold
+90 degrees, the hour-angle cosine of step 8 exceeds 1 (the sun never
reaches +90 degrees altitude), yet `sun_set_time` does not fail with a
DomainError: it unconditionally returns the pair obtained by pushing `acos`
of the out-of-range value through the calendar decode. -/
theorem c2_counterexample :
    1 < Observer.w0Cos ⟨none, 0, 0, 0⟩ (Time.new 2024 9 10 3 0 0) 90 ∧
    Observer.sun_set_time ⟨none, 0, 0, 0⟩ (Time.new 2024 9 10 3 0 0) 90 =
      (fromJdReal (Observer.jtransit ⟨none, 0, 0, 0⟩ (Time.new 2024 9 10 3 0 0)
          - toDegrees (Real.arccos
              (Observer.w0Cos ⟨none, 0, 0, 0⟩ (Time.new 2024 9 10 3 0 0) 90)) / 360),
       fromJdReal (Observer.jtransit ⟨none, 0, 0, 0⟩ (Time.new 2024 9 10 3 0 0)
          + toDegrees (Real.arccos
              (Observer.w0Cos ⟨none, 0, 0, 0⟩ (Time.new 2024 9 10 3 0 0) 90)) / 360)) := by
  constructor
  · have hjdQ : (Time.new 2024 9 10 3 0 0).to_jd = 19684509/8 := by
      rw [to_jd_eq]
      norm_num [jdnZ, secsZ, Time.new]
    have hjdR : (((Time.new 2024 9 10 3 0 0).to_jd : ℚ) : ℝ) = 19684509/8 := by
      rw [hjdQ]; push_cast; norm_num
    have hn : Observer.nDays (Time.new 2024 9 10 3 0 0) = 9019 := by
      unfold Observer.nDays
      rw [hjdR]
      rw [show ⌈(19684509/8 : ℝ) - (2451545.0 + 0.0009) - 69.184/86400⌉ = (9019 : ℤ) by
        rw [Int.ceil_eq_iff]
        constructor <;> norm_num]
      norm_num
    have hjstar : Observer.jstar ⟨none, 0, 0, 0⟩ (Time.new 2024 9 10 3 0 0)
        = 90190009/10000 := by
      unfold Observer.jstar
      rw [hn]
      norm_num
    have hM : Observer.meanAnomaly ⟨none, 0, 0, 0⟩ (Time.new 2024 9 10 3 0 0)
        = 61664728090063/250000000000 := by
      unfold Observer.meanAnomaly rmod rtrunc
      rw [hjstar]
      rw [if_pos (by norm_num : (0:ℝ) ≤ (357.5291 + 0.98560028 * (90190009/10000 : ℝ)) / 360)]
      rw [show ⌊(357.5291 + 0.98560028 * (90190009/10000 : ℝ)) / 360⌋ = (25 : ℤ) by
        rw [Int.floor_eq_iff]
        constructor <;> norm_num]
      norm_num
    have hC : |Observer.eqCenter ⟨none, 0, 0, 0⟩ (Time.new 2024 9 10 3 0 0)| ≤ 1.9351 := by
      unfold Observer.eqCenter
      have s1a := Real.neg_one_le_sin
        (toRadians (Observer.meanAnomaly ⟨none, 0, 0, 0⟩ (Time.new 2024 9 10 3 0 0)))
      have s1b := Real.sin_le_one
        (toRadians (Observer.meanAnomaly ⟨none, 0, 0, 0⟩ (Time.new 2024 9 10 3 0 0)))
      have s2a := Real.neg_one_le_sin
        (2 * toRadians (Observer.meanAnomaly ⟨none, 0, 0, 0⟩ (Time.new 2024 9 10 3 0 0)))
      have s2b := Real.sin_le_one
        (2 * toRadians (Observer.meanAnomaly ⟨none, 0, 0, 0⟩ (Time.new 2024 9 10 3 0 0)))
      have s3a := Real.neg_one_le_sin
        (3 * toRadians (Observer.meanAnomaly ⟨none, 0, 0, 0⟩ (Time.new 2024 9 10 3 0 0)))
      have s3b := Real.sin_le_one
        (3 * toRadians (Observer.meanAnomaly ⟨none, 0, 0, 0⟩ (Time.new 2024 9 10 3 0 0)))
      rw [abs_le]
      constructor <;> nlinarith
    obtain ⟨hC1, hC2⟩ := abs_le.mp hC
    have hlam : 167 ≤ Observer.eclipticLongitude ⟨none, 0, 0, 0⟩ (Time.new 2024 9 10 3 0 0) ∧
        Observer.eclipticLongitude ⟨none, 0, 0, 0⟩ (Time.new 2024 9 10 3 0 0) ≤ 172 := by
      unfold Observer.eclipticLongitude rmod rtrunc
      rw [hM]
      have hdvd1 : (527 : ℝ) ≤ 61664728090063/250000000000
          + Observer.eqCenter ⟨none, 0, 0, 0⟩ (Time.new 2024 9 10 3 0 0) + 180 + 102.9372 := by
        nlinarith
      have hdvd2 : (61664728090063/250000000000 : ℝ)
          + Observer.eqCenter ⟨none, 0, 0, 0⟩ (Time.new 2024 9 10 3 0 0) + 180 + 102.9372
          ≤ 532 := by
        nlinarith
      rw [if_pos (div_nonneg (by linarith) (by norm_num) : (0:ℝ) ≤ ((61664728090063/250000000000 : ℝ)
          + Observer.eqCenter ⟨none, 0, 0, 0⟩ (Time.new 2024 9 10 3 0 0) + 180 + 102.9372) / 360)]
      rw [show ⌊((61664728090063/250000000000 : ℝ)
          + Observer.eqCenter ⟨none, 0, 0, 0⟩ (Time.new 2024 9 10 3 0 0) + 180 + 102.9372) / 360⌋
          = (1 : ℤ) by
        rw [Int.floor_eq_iff]
        constructor
        · rw [le_div_iff₀ (by norm_num)]
          push_cast
          nlinarith
        · rw [div_lt_iff₀ (by norm_num)]
          push_cast
          nlinarith]
      constructor <;> push_cast <;> nlinarith
    have hpi := Real.pi_pos
    have hsinlam : 0 < Real.sin (toRadians
        (Observer.eclipticLongitude ⟨none, 0, 0, 0⟩ (Time.new 2024 9 10 3 0 0))) := by
      apply Real.sin_pos_of_pos_of_lt_pi
      · unfold toRadians
        nlinarith [hlam.1]
      · unfold toRadians
        nlinarith [hlam.2]
    have heps_pos : 0 < Real.sin (toRadians 23.4397) := by
      apply Real.sin_pos_of_pos_of_lt_pi
      · unfold toRadians
        nlinarith
      · unfold toRadians
        nlinarith
    have heps_cos : 0 < Real.cos (toRadians 23.4397) := by
      apply Real.cos_pos_of_mem_Ioo
      constructor
      · unfold toRadians
        nlinarith
      · unfold toRadians
        nlinarith
    have heps_lt : Real.sin (toRadians 23.4397) < 1 := by
      have hsc := Real.sin_sq_add_cos_sq (toRadians 23.4397)
      nlinarith
    have hds_pos : 0 < Observer.deltaSin ⟨none, 0, 0, 0⟩ (Time.new 2024 9 10 3 0 0) := by
      unfold Observer.deltaSin
      exact mul_pos hsinlam heps_pos
    have hds_lt : Observer.deltaSin ⟨none, 0, 0, 0⟩ (Time.new 2024 9 10 3 0 0) < 1 := by
      unfold Observer.deltaSin
      calc Real.sin (toRadians
              (Observer.eclipticLongitude ⟨none, 0, 0, 0⟩ (Time.new 2024 9 10 3 0 0)))
            * Real.sin (toRadians 23.4397)
          ≤ Real.sin (toRadians 23.4397) :=
            mul_le_of_le_one_left heps_pos.le (Real.sin_le_one _)
        _ < 1 := heps_lt
    have hdc : Observer.deltaCos ⟨none, 0, 0, 0⟩ (Time.new 2024 9 10 3 0 0)
        = Real.sqrt (1 - Observer.deltaSin ⟨none, 0, 0, 0⟩ (Time.new 2024 9 10 3 0 0) ^ 2) := by
      unfold Observer.deltaCos
      exact Real.cos_arcsin _
    have hdc_pos : 0 < Observer.deltaCos ⟨none, 0, 0, 0⟩ (Time.new 2024 9 10 3 0 0) := by
      rw [hdc]
      apply Real.sqrt_pos.mpr
      nlinarith
    have hdc_lt : Observer.deltaCos ⟨none, 0, 0, 0⟩ (Time.new 2024 9 10 3 0 0) < 1 := by
      rw [hdc]
      calc Real.sqrt (1 - Observer.deltaSin ⟨none, 0, 0, 0⟩ (Time.new 2024 9 10 3 0 0) ^ 2)
          < Real.sqrt 1 := Real.sqrt_lt_sqrt (by nlinarith) (by nlinarith)
        _ = 1 := Real.sqrt_one
    unfold Observer.w0Cos
    rw [show ((⟨none, 0, 0, 0⟩ : Observer).elevation) = (0 : ℝ) from rfl,
        show ((⟨none, 0, 0, 0⟩ : Observer).lat) = (0 : ℝ) from rfl]
    rw [Real.sqrt_zero]
    rw [show (90 : ℝ) - 2.076 * 0 / 60 = 90 by norm_num]
    rw [show toRadians 90 = Real.pi / 2 by unfold toRadians; ring]
    rw [show toRadians 0 = 0 by unfold toRadians; ring]
    rw [Real.sin_pi_div_two, Real.sin_zero, Real.cos_zero]
    rw [show (1 : ℝ) - 0 * Observer.deltaSin ⟨none, 0, 0, 0⟩ (Time.new 2024 9 10 3 0 0)
        = 1 by ring]
    rw [show (1 : ℝ) * Observer.deltaCos ⟨none, 0, 0, 0⟩ (Time.new 2024 9 10 3 0 0)
        = Observer.deltaCos ⟨none, 0, 0, 0⟩ (Time.new 2024 9 10 3 0 0) by ring]
    exact one_lt_one_div hdc_pos hdc_lt
  · rfl

/-- C2 (amended): `sun_set_time` has no error path at all.  For every
observer, reference instant and altitude threshold -- including those whose
hour-angle cosine lies outside [-1, 1] -- it applies `acos` to the step-8
cosine (NaN in Rust `f64` for out-of-range input) and returns an ordinary
pair of `Time` values computed from it; no DomainError is raised. -/
theorem c2_no_error_path (o : Observer) (after : Time) (solar_alt : ℝ) :
    Observer.sun_set_time o after solar_alt =
      (fromJdReal (Observer.jtransit o after
          - toDegrees (Real.arccos (Observer.w0Cos o after solar_alt)) / 360),
       fromJdReal (Observer.jtransit o after
          + toDegrees (Real.arccos (Observer.w0Cos o after solar_alt)) / 360)) := rfl

theorem sin_cubic_bounds (x : ℝ) (h : |x| ≤ 1) :
    x - x^3/6 - x^4*(5/96) ≤ Real.sin x ∧ Real.sin x ≤ x - x^3/6 + x^4*(5/96) := by
  have hb := Real.sin_bound h
  rw [abs_le] at hb
  have h4 : |x|^4 = x^4 := by
    rw [← abs_pow]
    exact abs_of_nonneg (by positivity)
  rw [h4] at hb
  constructor <;> linarith [hb.1, hb.2]

theorem abs_sin_sub_sin (x y : ℝ) : |Real.sin x - Real.sin y| ≤ |x - y| := by
  rw [Real.sin_sub_sin]
  calc |2 * Real.sin ((x - y)/2) * Real.cos ((x + y)/2)|
      = 2 * |Real.sin ((x - y)/2)| * |Real.cos ((x + y)/2)| := by
        rw [abs_mul, abs_mul]
        norm_num
    _ ≤ 2 * |(x - y)/2| * 1 := by
        apply mul_le_mul _ (Real.abs_cos_le_one _) (abs_nonneg _) (by positivity)
        exact mul_le_mul_of_nonneg_left (Real.abs_sin_le_abs) (by norm_num)
    _ = |x - y| := by
        rw [abs_div]
        norm_num
        ring

theorem sin_near (x c l u w : ℝ) (hl : l ≤ Real.sin c) (hu : Real.sin c ≤ u)
    (hx : |x - c| ≤ w) : l - w ≤ Real.sin x ∧ Real.sin x ≤ u + w := by
  have h1 := le_trans (abs_sin_sub_sin x c) hx
  rw [abs_le] at h1
  constructor <;> linarith [h1.1, h1.2]

theorem arccos_bracket (x a b : ℝ) (hx1 : -1 ≤ x) (hx2 : x ≤ 1)
    (ha0 : 0 ≤ a) (hapi : a ≤ Real.pi) (hb0 : 0 ≤ b) (hbpi : b ≤ Real.pi)
    (hca : x ≤ Real.cos a) (hcb : Real.cos b ≤ x) :
    a ≤ Real.arccos x ∧ Real.arccos x ≤ b := by
  constructor
  · by_contra hcon
    push_neg at hcon
    have h1 : Real.cos a < Real.cos (Real.arccos x) :=
      Real.strictAntiOn_cos ⟨Real.arccos_nonneg x, Real.arccos_le_pi x⟩ ⟨ha0, hapi⟩ hcon
    rw [Real.cos_arccos hx1 hx2] at h1
    linarith
  · by_contra hcon
    push_neg at hcon
    have h1 : Real.cos (Real.arccos x) < Real.cos b :=
      Real.strictAntiOn_cos ⟨hb0, hbpi⟩ ⟨Real.arccos_nonneg x, Real.arccos_le_pi x⟩ hcon
    rw [Real.cos_arccos hx1 hx2] at h1
    linarith

theorem sqrt_bracket (y l u : ℝ) (hl0 : 0 ≤ l) (hu0 : 0 ≤ u)
    (h1 : l^2 ≤ y) (h2 : y ≤ u^2) :
    l ≤ Real.sqrt y ∧ Real.sqrt y ≤ u := by
  constructor
  · rw [show l = Real.sqrt (l^2) by rw [Real.sqrt_sq hl0]]
    exact Real.sqrt_le_sqrt h1
  · rw [show u = Real.sqrt (u^2) by rw [Real.sqrt_sq hu0]]
    exact Real.sqrt_le_sqrt h2

set_option maxHeartbeats 4000000 in
/-- C7: for Observer(lat 33.3633675, lon -116.8361345, elevation 1870),
reference instant 2024-09-10T03:00:00 and the default solar altitude
-0.833 degrees, `sun_set_time` returns the pair decoded from Julian
dates within 1/86400 day (one second) of 2024-09-10T13:22:01Z (sunrise)
and 2024-09-11T02:09:11Z (sunset). -/
theorem c7_sun_set_contract :
    Observer.sun_set_time ⟨none, 33.3633675, -116.8361345, 1870⟩ (Time.new 2024 9 10 3 0 0) (-0.833) =
      (fromJdReal (Observer.jtransit ⟨none, 33.3633675, -116.8361345, 1870⟩ (Time.new 2024 9 10 3 0 0) - toDegrees (Real.arccos (Observer.w0Cos ⟨none, 33.3633675, -116.8361345, 1870⟩ (Time.new 2024 9 10 3 0 0) (-0.833))) / 360), fromJdReal (Observer.jtransit ⟨none, 33.3633675, -116.8361345, 1870⟩ (Time.new 2024 9 10 3 0 0) + toDegrees (Real.arccos (Observer.w0Cos ⟨none, 33.3633675, -116.8361345, 1870⟩ (Time.new 2024 9 10 3 0 0) (-0.833))) / 360)) ∧
    |(Observer.jtransit ⟨none, 33.3633675, -116.8361345, 1870⟩ (Time.new 2024 9 10 3 0 0) - toDegrees (Real.arccos (Observer.w0Cos ⟨none, 33.3633675, -116.8361345, 1870⟩ (Time.new 2024 9 10 3 0 0) (-0.833))) / 360) - (((Time.new 2024 9 10 13 22 1).to_jd : ℚ) : ℝ)| ≤ 1/86400 ∧
    |(Observer.jtransit ⟨none, 33.3633675, -116.8361345, 1870⟩ (Time.new 2024 9 10 3 0 0) + toDegrees (Real.arccos (Observer.w0Cos ⟨none, 33.3633675, -116.8361345, 1870⟩ (Time.new 2024 9 10 3 0 0) (-0.833))) / 360) - (((Time.new 2024 9 11 2 9 11).to_jd : ℚ) : ℝ)| ≤ 1/86400 := by
  have hjdQ : (Time.new 2024 9 10 3 0 0).to_jd = 2460563.625 := by
    rw [to_jd_eq]
    norm_num [jdnZ, secsZ, Time.new]
  have hjdR : (((Time.new 2024 9 10 3 0 0).to_jd : ℚ) : ℝ) = 2460563.625 := by
    rw [hjdQ]; push_cast; norm_num
  have hn : Observer.nDays (Time.new 2024 9 10 3 0 0) = 9019 := by
    unfold Observer.nDays
    rw [hjdR]
    rw [show ⌈(2460563.625 : ℝ) - (2451545.0 + 0.0009) - 69.184 / 86400⌉ = (9019 : ℤ) by
      rw [Int.ceil_eq_iff]
      constructor <;> norm_num]
    norm_num
  have hjstar : Observer.jstar ⟨none, 33.3633675, -116.8361345, 1870⟩ (Time.new 2024 9 10 3 0 0) = (6493914320269/720000000) := by
    unfold Observer.jstar
    rw [hn]
    norm_num
  have hM : Observer.meanAnomaly ⟨none, 33.3633675, -116.8361345, 1870⟩ (Time.new 2024 9 10 3 0 0) = (4445618108828401883/18000000000000000) := by
    unfold Observer.meanAnomaly rmod rtrunc
    rw [hjstar]
    rw [if_pos (by norm_num : (0:ℝ) ≤ (357.5291 + 0.98560028 * ((6493914320269/720000000) : ℝ)) / 360)]
    rw [show ⌊(357.5291 + 0.98560028 * ((6493914320269/720000000) : ℝ)) / 360⌋ = (25 : ℤ) by
      rw [Int.floor_eq_iff]
      constructor <;> norm_num]
    norm_num
  have hq1e0 : (0.043282595984 : ℝ) ≤ Real.sin (0.043296306 : ℝ) ∧ Real.sin (0.043296306 : ℝ) ≤ 0.043282962028 := by
    have h := sin_cubic_bounds (0.043296306 : ℝ) (by rw [abs_le]; constructor <;> norm_num)
    norm_num at h
    exact ⟨by linarith only [h.1, h.2], by linarith only [h.1, h.2]⟩
  have hq1e1 : (0.129523448412 : ℝ) ≤ Real.sin (3*(0.043296306 : ℝ)) ∧ Real.sin (3*(0.043296306 : ℝ)) ≤ 0.129524538319 := by
    rw [Real.sin_three_mul]
    constructor <;> nlinarith only [hq1e0.1, hq1e0.2, sq_nonneg (Real.sin (0.043296306 : ℝ)), sq_nonneg (Real.sin (0.043296306 : ℝ) - 0.043282779006)]
  have hq1e2 : (0.379878636048 : ℝ) ≤ Real.sin (3*(3*(0.043296306 : ℝ))) ∧ Real.sin (3*(3*(0.043296306 : ℝ))) ≤ 0.379881686361 := by
    rw [Real.sin_three_mul]
    constructor <;> nlinarith only [hq1e1.1, hq1e1.2, sq_nonneg (Real.sin (3*(0.043296306 : ℝ))), sq_nonneg (Real.sin (3*(0.043296306 : ℝ)) - 0.1295239933655)]
  have hq1e3 : (0.920358140413 : ℝ) ≤ Real.sin (3*(3*(3*(0.043296306 : ℝ)))) ∧ Real.sin (3*(3*(3*(0.043296306 : ℝ)))) ≤ 0.920362009161 := by
    rw [Real.sin_three_mul]
    constructor <;> nlinarith only [hq1e2.1, hq1e2.2, sq_nonneg (Real.sin (3*(3*(0.043296306 : ℝ)))), sq_nonneg (Real.sin (3*(3*(0.043296306 : ℝ))) - 0.3798801612045)]
  have hq1ec : (0.920358140413 : ℝ) ≤ Real.sin (1.169000262 : ℝ) ∧ Real.sin (1.169000262 : ℝ) ≤ 0.920362009161 := by
    rw [show (1.169000262 : ℝ) = (3*(3*(3*(0.043296306 : ℝ)))) by norm_num]
    exact hq1e3
  have hq1x : |(((1205618108828401883/3240000000000000000) : ℝ) * Real.pi) - (1.169000262 : ℝ)| ≤ 0.000000198498 := by
    rw [abs_le]
    constructor <;> nlinarith only [Real.pi_gt_d6, Real.pi_lt_d6]
  have hq1 : (0.920357941915 : ℝ) ≤ Real.sin (((1205618108828401883/3240000000000000000) : ℝ) * Real.pi) ∧ Real.sin (((1205618108828401883/3240000000000000000) : ℝ) * Real.pi) ≤ 0.920362207659 := by
    have h2 := sin_near (((1205618108828401883/3240000000000000000) : ℝ) * Real.pi) (1.169000262 : ℝ) (0.920358140413 : ℝ) (0.920362009161 : ℝ) (0.000000198498 : ℝ) hq1ec.1 hq1ec.2 hq1x
    exact ⟨by linarith only [h2.1], by linarith only [h2.2]⟩
  have hs1 : (-0.920362207659 : ℝ) ≤ Real.sin (toRadians ((4445618108828401883/18000000000000000) : ℝ)) ∧ Real.sin (toRadians ((4445618108828401883/18000000000000000) : ℝ)) ≤ -0.920357941915 := by
    rw [show toRadians ((4445618108828401883/18000000000000000) : ℝ) = (((1205618108828401883/3240000000000000000) : ℝ) * Real.pi) + Real.pi by unfold toRadians; ring]
    rw [Real.sin_add_pi]
    exact ⟨by linarith only [hq1.2], by linarith only [hq1.1]⟩
  have hq2e0 : (0.029758232088 : ℝ) ≤ Real.sin (0.029762667 : ℝ) ∧ Real.sin (0.029762667 : ℝ) ≤ 0.029758313826 := by
    have h := sin_cubic_bounds (0.029762667 : ℝ) (by rw [abs_le]; constructor <;> norm_num)
    norm_num at h
    exact ⟨by linarith only [h.1, h.2], by linarith only [h.1, h.2]⟩
  have hq2e1 : (0.08916928637 : ℝ) ≤ Real.sin (3*(0.029762667 : ℝ)) ∧ Real.sin (3*(0.029762667 : ℝ)) ≤ 0.089169530718 := by
    rw [Real.sin_three_mul]
    constructor <;> nlinarith only [hq2e0.1, hq2e0.2, sq_nonneg (Real.sin (0.029762667 : ℝ)), sq_nonneg (Real.sin (0.029762667 : ℝ) - 0.029758272957)]
  have hq2e2 : (0.264671861474 : ℝ) ≤ Real.sin (3*(3*(0.029762667 : ℝ))) ∧ Real.sin (3*(3*(0.029762667 : ℝ))) ≤ 0.264672571207 := by
    rw [Real.sin_three_mul]
    constructor <;> nlinarith only [hq2e1.1, hq2e1.2, sq_nonneg (Real.sin (3*(0.029762667 : ℝ))), sq_nonneg (Real.sin (3*(0.029762667 : ℝ)) - 0.089169408544)]
  have hq2e3 : (0.71985326449 : ℝ) ≤ Real.sin (3*(3*(3*(0.029762667 : ℝ)))) ∧ Real.sin (3*(3*(3*(0.029762667 : ℝ)))) ≤ 0.719854797082 := by
    rw [Real.sin_three_mul]
    constructor <;> nlinarith only [hq2e2.1, hq2e2.2, sq_nonneg (Real.sin (3*(3*(0.029762667 : ℝ)))), sq_nonneg (Real.sin (3*(3*(0.029762667 : ℝ))) - 0.2646722163405)]
  have hq2ec : (0.71985326449 : ℝ) ≤ Real.sin (0.803592009 : ℝ) ∧ Real.sin (0.803592009 : ℝ) ≤ 0.719854797082 := by
    rw [show (0.803592009 : ℝ) = (3*(3*(3*(0.029762667 : ℝ)))) by norm_num]
    exact hq2e3
  have hq2x : |(((414381891171598117/1620000000000000000) : ℝ) * Real.pi) - (0.803592009 : ℝ)| ≤ 0.000000136008 := by
    rw [abs_le]
    constructor <;> nlinarith only [Real.pi_gt_d6, Real.pi_lt_d6]
  have hq2 : (0.719853128482 : ℝ) ≤ Real.sin (((414381891171598117/1620000000000000000) : ℝ) * Real.pi) ∧ Real.sin (((414381891171598117/1620000000000000000) : ℝ) * Real.pi) ≤ 0.71985493309 := by
    have h2 := sin_near (((414381891171598117/1620000000000000000) : ℝ) * Real.pi) (0.803592009 : ℝ) (0.71985326449 : ℝ) (0.719854797082 : ℝ) (0.000000136008 : ℝ) hq2ec.1 hq2ec.2 hq2x
    exact ⟨by linarith only [h2.1], by linarith only [h2.2]⟩
  have hs2 : (0.719853128482 : ℝ) ≤ Real.sin (2 * toRadians ((4445618108828401883/18000000000000000) : ℝ)) ∧ Real.sin (2 * toRadians ((4445618108828401883/18000000000000000) : ℝ)) ≤ 0.71985493309 := by
    rw [show 2 * toRadians ((4445618108828401883/18000000000000000) : ℝ) = (Real.pi - ((414381891171598117/1620000000000000000) : ℝ) * Real.pi) + 2 * Real.pi by unfold toRadians; ring]
    rw [Real.sin_add_two_pi, Real.sin_pi_sub]
    exact hq2
  have hq3e0 : (0.040589620813 : ℝ) ≤ Real.sin (0.040600917 : ℝ) ∧ Real.sin (0.040600917 : ℝ) ≤ 0.04058990387 := by
    have h := sin_cubic_bounds (0.040600917 : ℝ) (by rw [abs_le]; constructor <;> norm_num)
    norm_num at h
    exact ⟨by linarith only [h.1, h.2], by linarith only [h.1, h.2]⟩
  have hq3e1 : (0.121501374024 : ℝ) ≤ Real.sin (3*(0.040600917 : ℝ)) ∧ Real.sin (3*(0.040600917 : ℝ)) ≤ 0.121502217603 := by
    rw [Real.sin_three_mul]
    constructor <;> nlinarith only [hq3e0.1, hq3e0.2, sq_nonneg (Real.sin (0.040600917 : ℝ)), sq_nonneg (Real.sin (0.040600917 : ℝ) - 0.0405897623415)]
  have hq3e2 : (0.357329425161 : ℝ) ≤ Real.sin (3*(3*(0.040600917 : ℝ))) ∧ Real.sin (3*(3*(0.040600917 : ℝ))) ≤ 0.357331806464 := by
    rw [Real.sin_three_mul]
    constructor <;> nlinarith only [hq3e1.1, hq3e1.2, sq_nonneg (Real.sin (3*(0.040600917 : ℝ))), sq_nonneg (Real.sin (3*(0.040600917 : ℝ)) - 0.1215017958135)]
  have hq3ec : (0.357329425161 : ℝ) ≤ Real.sin (0.365408253 : ℝ) ∧ Real.sin (0.365408253 : ℝ) ≤ 0.357331806464 := by
    rw [show (0.365408253 : ℝ) = (3*(3*(0.040600917 : ℝ))) by norm_num]
    exact hq3e2
  have hq3x : |(((125618108828401883/1080000000000000000) : ℝ) * Real.pi) - (0.365408253 : ℝ)| ≤ 0.000000062492 := by
    rw [abs_le]
    constructor <;> nlinarith only [Real.pi_gt_d6, Real.pi_lt_d6]
  have hq3 : (0.357329362669 : ℝ) ≤ Real.sin (((125618108828401883/1080000000000000000) : ℝ) * Real.pi) ∧ Real.sin (((125618108828401883/1080000000000000000) : ℝ) * Real.pi) ≤ 0.357331868956 := by
    have h2 := sin_near (((125618108828401883/1080000000000000000) : ℝ) * Real.pi) (0.365408253 : ℝ) (0.357329425161 : ℝ) (0.357331806464 : ℝ) (0.000000062492 : ℝ) hq3ec.1 hq3ec.2 hq3x
    exact ⟨by linarith only [h2.1], by linarith only [h2.2]⟩
  have hs3 : (0.357329362669 : ℝ) ≤ Real.sin (3 * toRadians ((4445618108828401883/18000000000000000) : ℝ)) ∧ Real.sin (3 * toRadians ((4445618108828401883/18000000000000000) : ℝ)) ≤ 0.357331868956 := by
    rw [show 3 * toRadians ((4445618108828401883/18000000000000000) : ℝ) = ((((125618108828401883/1080000000000000000) : ℝ) * Real.pi) + 2 * Real.pi) + 2 * Real.pi by unfold toRadians; ring]
    rw [Real.sin_add_two_pi, Real.sin_add_two_pi]
    exact hq3
  have hCC : (-1.747805293848 : ℝ) ≤ Observer.eqCenter ⟨none, 33.3633675, -116.8361345, 1870⟩ (Time.new 2024 9 10 3 0 0) ∧ Observer.eqCenter ⟨none, 33.3633675, -116.8361345, 1870⟩ (Time.new 2024 9 10 3 0 0) ≤ -1.747797088956 := by
    unfold Observer.eqCenter
    rw [hM]
    exact ⟨by linarith only [hs1.1, hs2.1, hs3.1], by linarith only [hs1.2, hs2.2, hs3.2]⟩
  have hlam : (168.168178529952 : ℝ) ≤ Observer.eclipticLongitude ⟨none, 33.3633675, -116.8361345, 1870⟩ (Time.new 2024 9 10 3 0 0) ∧ Observer.eclipticLongitude ⟨none, 33.3633675, -116.8361345, 1870⟩ (Time.new 2024 9 10 3 0 0) ≤ 168.168186734845 := by
    unfold Observer.eclipticLongitude rmod rtrunc
    rw [hM]
    rw [if_pos (div_nonneg (by linarith only [hCC.1]) (by norm_num) : (0:ℝ) ≤ (((4445618108828401883/18000000000000000) : ℝ) + Observer.eqCenter ⟨none, 33.3633675, -116.8361345, 1870⟩ (Time.new 2024 9 10 3 0 0) + 180 + 102.9372) / 360)]
    rw [show ⌊(((4445618108828401883/18000000000000000) : ℝ) + Observer.eqCenter ⟨none, 33.3633675, -116.8361345, 1870⟩ (Time.new 2024 9 10 3 0 0) + 180 + 102.9372) / 360⌋ = (1 : ℤ) by
      rw [Int.floor_eq_iff]
      constructor
      · rw [le_div_iff₀ (by norm_num)]
        push_cast
        nlinarith only [hCC.1]
      · rw [div_lt_iff₀ (by norm_num)]
        push_cast
        nlinarith only [hCC.2]]
    constructor <;> push_cast <;> nlinarith only [hCC.1, hCC.2]
  have hq4e0 : (-0.045873937607 : ℝ) ≤ Real.sin (-0.045889813 : ℝ) ∧ Real.sin (-0.045889813 : ℝ) ≤ -0.045873475657 := by
    have h := sin_cubic_bounds (-0.045889813 : ℝ) (by rw [abs_le]; constructor <;> norm_num)
    rw [show (-0.045889813 : ℝ) = -(0.045889813 : ℝ) by norm_num, Real.sin_neg] at h ⊢
    norm_num at h
    exact ⟨by linarith only [h.1, h.2], by linarith only [h.1, h.2]⟩
  have hq4e1 : (-0.137235661035 : ℝ) ≤ Real.sin (3*(-0.045889813 : ℝ)) ∧ Real.sin (3*(-0.045889813 : ℝ)) ≤ -0.137234286846 := by
    rw [Real.sin_three_mul]
    constructor <;> nlinarith only [hq4e0.1, hq4e0.2, sq_nonneg (Real.sin (-0.045889813 : ℝ)), sq_nonneg (Real.sin (-0.045889813 : ℝ) - -0.045873706632)]
  have hq4e2 : (-0.401368402295 : ℝ) ≤ Real.sin (3*(3*(-0.045889813 : ℝ))) ∧ Real.sin (3*(3*(-0.045889813 : ℝ))) ≤ -0.401364590282 := by
    rw [Real.sin_three_mul]
    constructor <;> nlinarith only [hq4e1.1, hq4e1.2, sq_nonneg (Real.sin (3*(-0.045889813 : ℝ))), sq_nonneg (Real.sin (3*(-0.045889813 : ℝ)) - -0.1372349739405)]
  have hq4ec : (-0.401368402295 : ℝ) ≤ Real.sin (-0.413008317 : ℝ) ∧ Real.sin (-0.413008317 : ℝ) ≤ -0.401364590282 := by
    rw [show (-0.413008317 : ℝ) = (3*(3*(-0.045889813 : ℝ))) by norm_num]
    exact hq4e2
  have hq4x : |(2 * (Observer.eclipticLongitude ⟨none, 33.3633675, -116.8361345, 1870⟩ (Time.new 2024 9 10 3 0 0)) / 180 * Real.pi - 2 * Real.pi) - (-0.413008317 : ℝ)| ≤ 0.000000210863 := by
    rw [abs_le]
    constructor <;> nlinarith only [Real.pi_gt_d6, Real.pi_lt_d6, hlam.1, hlam.2]
  have hq4 : (-0.401368613158 : ℝ) ≤ Real.sin (2 * (Observer.eclipticLongitude ⟨none, 33.3633675, -116.8361345, 1870⟩ (Time.new 2024 9 10 3 0 0)) / 180 * Real.pi - 2 * Real.pi) ∧ Real.sin (2 * (Observer.eclipticLongitude ⟨none, 33.3633675, -116.8361345, 1870⟩ (Time.new 2024 9 10 3 0 0)) / 180 * Real.pi - 2 * Real.pi) ≤ -0.401364379419 := by
    have h2 := sin_near (2 * (Observer.eclipticLongitude ⟨none, 33.3633675, -116.8361345, 1870⟩ (Time.new 2024 9 10 3 0 0)) / 180 * Real.pi - 2 * Real.pi) (-0.413008317 : ℝ) (-0.401368402295 : ℝ) (-0.401364590282 : ℝ) (0.000000210863 : ℝ) hq4ec.1 hq4ec.2 hq4x
    exact ⟨by linarith only [h2.1], by linarith only [h2.2]⟩
  have hs2l : (-0.401368613158 : ℝ) ≤ Real.sin (2 * toRadians (Observer.eclipticLongitude ⟨none, 33.3633675, -116.8361345, 1870⟩ (Time.new 2024 9 10 3 0 0))) ∧ Real.sin (2 * toRadians (Observer.eclipticLongitude ⟨none, 33.3633675, -116.8361345, 1870⟩ (Time.new 2024 9 10 3 0 0))) ≤ -0.401364379419 := by
    rw [show 2 * toRadians (Observer.eclipticLongitude ⟨none, 33.3633675, -116.8361345, 1870⟩ (Time.new 2024 9 10 3 0 0)) = (2 * (Observer.eclipticLongitude ⟨none, 33.3633675, -116.8361345, 1870⟩ (Time.new 2024 9 10 3 0 0)) / 180 * Real.pi - 2 * Real.pi) + 2 * Real.pi by unfold toRadians; ring]
    rw [Real.sin_add_two_pi]
    exact hq4
  have hjt : (2460564.323336312572 : ℝ) ≤ Observer.jtransit ⟨none, 33.3633675, -116.8361345, 1870⟩ (Time.new 2024 9 10 3 0 0) ∧ Observer.jtransit ⟨none, 33.3633675, -116.8361345, 1870⟩ (Time.new 2024 9 10 3 0 0) ≤ 2460564.323336364395 := by
    unfold Observer.jtransit
    rw [hM, hjstar]
    exact ⟨by linarith only [hs1.1, hs2l.2], by linarith only [hs1.2, hs2l.1]⟩
  have hq5e0 : (0.022942879267 : ℝ) ≤ Real.sin (0.022944907 : ℝ) ∧ Real.sin (0.022944907 : ℝ) ≤ 0.02294290814 := by
    have h := sin_cubic_bounds (0.022944907 : ℝ) (by rw [abs_le]; constructor <;> norm_num)
    norm_num at h
    exact ⟨by linarith only [h.1, h.2], by linarith only [h.1, h.2]⟩
  have hq5e1 : (0.068780331502 : ℝ) ≤ Real.sin (3*(0.022944907 : ℝ)) ∧ Real.sin (3*(0.022944907 : ℝ)) ≤ 0.068780417942 := by
    rw [Real.sin_three_mul]
    constructor <;> nlinarith only [hq5e0.1, hq5e0.2, sq_nonneg (Real.sin (0.022944907 : ℝ)), sq_nonneg (Real.sin (0.022944907 : ℝ) - 0.0229428937035)]
  have hq5e2 : (0.205039468693 : ℝ) ≤ Real.sin (3*(3*(0.022944907 : ℝ))) ∧ Real.sin (3*(3*(0.022944907 : ℝ))) ≤ 0.205039723109 := by
    rw [Real.sin_three_mul]
    constructor <;> nlinarith only [hq5e1.1, hq5e1.2, sq_nonneg (Real.sin (3*(0.022944907 : ℝ))), sq_nonneg (Real.sin (3*(0.022944907 : ℝ)) - 0.068780374722)]
  have hq5ec : (0.205039468693 : ℝ) ≤ Real.sin (0.206504163 : ℝ) ∧ Real.sin (0.206504163 : ℝ) ≤ 0.205039723109 := by
    rw [show (0.206504163 : ℝ) = (3*(3*(0.022944907 : ℝ))) by norm_num]
    exact hq5e2
  have hq5x : |((180 - (Observer.eclipticLongitude ⟨none, 33.3633675, -116.8361345, 1870⟩ (Time.new 2024 9 10 3 0 0))) / 180 * Real.pi) - (0.206504163 : ℝ)| ≤ 0.000000108005 := by
    rw [abs_le]
    constructor <;> nlinarith only [Real.pi_gt_d6, Real.pi_lt_d6, hlam.1, hlam.2]
  have hq5 : (0.205039360688 : ℝ) ≤ Real.sin ((180 - (Observer.eclipticLongitude ⟨none, 33.3633675, -116.8361345, 1870⟩ (Time.new 2024 9 10 3 0 0))) / 180 * Real.pi) ∧ Real.sin ((180 - (Observer.eclipticLongitude ⟨none, 33.3633675, -116.8361345, 1870⟩ (Time.new 2024 9 10 3 0 0))) / 180 * Real.pi) ≤ 0.205039831114 := by
    have h2 := sin_near ((180 - (Observer.eclipticLongitude ⟨none, 33.3633675, -116.8361345, 1870⟩ (Time.new 2024 9 10 3 0 0))) / 180 * Real.pi) (0.206504163 : ℝ) (0.205039468693 : ℝ) (0.205039723109 : ℝ) (0.000000108005 : ℝ) hq5ec.1 hq5ec.2 hq5x
    exact ⟨by linarith only [h2.1], by linarith only [h2.2]⟩
  have hslam : (0.205039360688 : ℝ) ≤ Real.sin (toRadians (Observer.eclipticLongitude ⟨none, 33.3633675, -116.8361345, 1870⟩ (Time.new 2024 9 10 3 0 0))) ∧ Real.sin (toRadians (Observer.eclipticLongitude ⟨none, 33.3633675, -116.8361345, 1870⟩ (Time.new 2024 9 10 3 0 0))) ≤ 0.205039831114 := by
    rw [show toRadians (Observer.eclipticLongitude ⟨none, 33.3633675, -116.8361345, 1870⟩ (Time.new 2024 9 10 3 0 0)) = Real.pi - (180 - (Observer.eclipticLongitude ⟨none, 33.3633675, -116.8361345, 1870⟩ (Time.new 2024 9 10 3 0 0))) / 180 * Real.pi by unfold toRadians; ring]
    rw [Real.sin_pi_sub]
    exact hq5
  have hq6e0 : (0.045439671218 : ℝ) ≤ Real.sin (0.045455547 : ℝ) ∧ Real.sin (0.045455547 : ℝ) ≤ 0.045440115929 := by
    have h := sin_cubic_bounds (0.045455547 : ℝ) (by rw [abs_le]; constructor <;> norm_num)
    norm_num at h
    exact ⟨by linarith only [h.1, h.2], by linarith only [h.1, h.2]⟩
  have hq6e1 : (0.135943724914 : ℝ) ≤ Real.sin (3*(0.045455547 : ℝ)) ∧ Real.sin (3*(0.045455547 : ℝ)) ≤ 0.135945048032 := by
    rw [Real.sin_three_mul]
    constructor <;> nlinarith only [hq6e0.1, hq6e0.2, sq_nonneg (Real.sin (0.045455547 : ℝ)), sq_nonneg (Real.sin (0.045455547 : ℝ) - 0.0454398935735)]
  have hq6e2 : (0.397781835935 : ℝ) ≤ Real.sin (3*(3*(0.045455547 : ℝ))) ∧ Real.sin (3*(3*(0.045455547 : ℝ))) ≤ 0.397785511874 := by
    rw [Real.sin_three_mul]
    constructor <;> nlinarith only [hq6e1.1, hq6e1.2, sq_nonneg (Real.sin (3*(0.045455547 : ℝ))), sq_nonneg (Real.sin (3*(0.045455547 : ℝ)) - 0.135944386473)]
  have hq6ec : (0.397781835935 : ℝ) ≤ Real.sin (0.409099923 : ℝ) ∧ Real.sin (0.409099923 : ℝ) ≤ 0.397785511874 := by
    rw [show (0.409099923 : ℝ) = (3*(3*(0.045455547 : ℝ))) by norm_num]
    exact hq6e2
  have hq6x : |(((234397/1800000) : ℝ) * Real.pi) - (0.409099923 : ℝ)| ≤ 0.000000067433 := by
    rw [abs_le]
    constructor <;> nlinarith only [Real.pi_gt_d6, Real.pi_lt_d6]
  have hq6 : (0.397781768502 : ℝ) ≤ Real.sin (((234397/1800000) : ℝ) * Real.pi) ∧ Real.sin (((234397/1800000) : ℝ) * Real.pi) ≤ 0.397785579307 := by
    have h2 := sin_near (((234397/1800000) : ℝ) * Real.pi) (0.409099923 : ℝ) (0.397781835935 : ℝ) (0.397785511874 : ℝ) (0.000000067433 : ℝ) hq6ec.1 hq6ec.2 hq6x
    exact ⟨by linarith only [h2.1], by linarith only [h2.2]⟩
  have hseps : (0.397781768502 : ℝ) ≤ Real.sin (toRadians 23.4397) ∧ Real.sin (toRadians 23.4397) ≤ 0.397785579307 := by
    rw [show toRadians (23.4397 : ℝ) = ((234397/1800000) : ℝ) * Real.pi by unfold toRadians; ring]
    exact hq6
  have hds : (0.081560919506 : ℝ) ≤ Observer.deltaSin ⟨none, 33.3633675, -116.8361345, 1870⟩ (Time.new 2024 9 10 3 0 0) ∧ Observer.deltaSin ⟨none, 33.3633675, -116.8361345, 1870⟩ (Time.new 2024 9 10 3 0 0) ≤ 0.081561888001 := by
    unfold Observer.deltaSin
    constructor <;> nlinarith only [hslam.1, hslam.2, hseps.1, hseps.2]
  have hdc : (0.996668279 : ℝ) ≤ Observer.deltaCos ⟨none, 33.3633675, -116.8361345, 1870⟩ (Time.new 2024 9 10 3 0 0) ∧ Observer.deltaCos ⟨none, 33.3633675, -116.8361345, 1870⟩ (Time.new 2024 9 10 3 0 0) ≤ 0.99666836 := by
    unfold Observer.deltaCos
    rw [Real.cos_arcsin]
    exact sqrt_bracket _ _ _ (by norm_num) (by norm_num)
      (by nlinarith only [hds.1, hds.2]) (by nlinarith only [hds.1, hds.2])
  have hsq : (43.24349662 : ℝ) ≤ Real.sqrt 1870 ∧ Real.sqrt 1870 ≤ 43.243496622 := by
    exact sqrt_bracket 1870 43.24349662 43.243496622 (by norm_num) (by norm_num) (by norm_num) (by norm_num)
  have hq7e0 : (-0.040641587905 : ℝ) ≤ Real.sin (-0.040652643 : ℝ) ∧ Real.sin (-0.040652643 : ℝ) ≤ -0.040641303403 := by
    have h := sin_cubic_bounds (-0.040652643 : ℝ) (by rw [abs_le]; constructor <;> norm_num)
    rw [show (-0.040652643 : ℝ) = -(0.040652643 : ℝ) by norm_num, Real.sin_neg] at h ⊢
    norm_num at h
    exact ⟨by linarith only [h.1, h.2], by linarith only [h.1, h.2]⟩
  have hq7ec := hq7e0
  have hq7x : |((-0.833 - 2.076 * Real.sqrt 1870 / 60) / 180 * Real.pi) - (-0.040652643 : ℝ)| ≤ 0.000000006485 := by
    rw [abs_le]
    constructor <;> nlinarith only [Real.pi_gt_d6, Real.pi_lt_d6, hsq.1, hsq.2]
  have hq7 : (-0.04064159439 : ℝ) ≤ Real.sin ((-0.833 - 2.076 * Real.sqrt 1870 / 60) / 180 * Real.pi) ∧ Real.sin ((-0.833 - 2.076 * Real.sqrt 1870 / 60) / 180 * Real.pi) ≤ -0.040641296918 := by
    have h2 := sin_near ((-0.833 - 2.076 * Real.sqrt 1870 / 60) / 180 * Real.pi) (-0.040652643 : ℝ) (-0.040641587905 : ℝ) (-0.040641303403 : ℝ) (0.000000006485 : ℝ) hq7ec.1 hq7ec.2 hq7x
    exact ⟨by linarith only [h2.1], by linarith only [h2.2]⟩
  have hsalt : (-0.04064159439 : ℝ) ≤ Real.sin (toRadians (-0.833 - 2.076 * Real.sqrt 1870 / 60)) ∧ Real.sin (toRadians (-0.833 - 2.076 * Real.sqrt 1870 / 60)) ≤ -0.040641296918 := by
    rw [show toRadians (-0.833 - 2.076 * Real.sqrt 1870 / 60) = (-0.833 - 2.076 * Real.sqrt 1870 / 60) / 180 * Real.pi by unfold toRadians; ring]
    exact hq7
  have hq8e0 : (0.021565004875 : ℝ) ≤ Real.sin (0.021566688 : ℝ) ∧ Real.sin (0.021566688 : ℝ) ≤ 0.021565027411 := by
    have h := sin_cubic_bounds (0.021566688 : ℝ) (by rw [abs_le]; constructor <;> norm_num)
    norm_num at h
    exact ⟨by linarith only [h.1, h.2], by linarith only [h.1, h.2]⟩
  have hq8e1 : (0.06465489945 : ℝ) ≤ Real.sin (3*(0.021566688 : ℝ)) ∧ Real.sin (3*(0.021566688 : ℝ)) ≤ 0.064654966935 := by
    rw [Real.sin_three_mul]
    constructor <;> nlinarith only [hq8e0.1, hq8e0.2, sq_nonneg (Real.sin (0.021566688 : ℝ)), sq_nonneg (Real.sin (0.021566688 : ℝ) - 0.021565016143)]
  have hq8e2 : (0.192883602217 : ℝ) ≤ Real.sin (3*(3*(0.021566688 : ℝ))) ∧ Real.sin (3*(3*(0.021566688 : ℝ))) ≤ 0.19288380129 := by
    rw [Real.sin_three_mul]
    constructor <;> nlinarith only [hq8e1.1, hq8e1.2, sq_nonneg (Real.sin (3*(0.021566688 : ℝ))), sq_nonneg (Real.sin (3*(0.021566688 : ℝ)) - 0.0646549331925)]
  have hq8e3 : (0.54994657569 : ℝ) ≤ Real.sin (3*(3*(3*(0.021566688 : ℝ)))) ∧ Real.sin (3*(3*(3*(0.021566688 : ℝ)))) ≤ 0.549947084036 := by
    rw [Real.sin_three_mul]
    constructor <;> nlinarith only [hq8e2.1, hq8e2.2, sq_nonneg (Real.sin (3*(3*(0.021566688 : ℝ)))), sq_nonneg (Real.sin (3*(3*(0.021566688 : ℝ))) - 0.1928837017535)]
  have hq8ec : (0.54994657569 : ℝ) ≤ Real.sin (0.582300576 : ℝ) ∧ Real.sin (0.582300576 : ℝ) ≤ 0.549947084036 := by
    rw [show (0.582300576 : ℝ) = (3*(3*(3*(0.021566688 : ℝ)))) by norm_num]
    exact hq8e3
  have hq8x : |(((4448449/24000000) : ℝ) * Real.pi) - (0.582300576 : ℝ)| ≤ 0.000000100637 := by
    rw [abs_le]
    constructor <;> nlinarith only [Real.pi_gt_d6, Real.pi_lt_d6]
  have hq8 : (0.549946475053 : ℝ) ≤ Real.sin (((4448449/24000000) : ℝ) * Real.pi) ∧ Real.sin (((4448449/24000000) : ℝ) * Real.pi) ≤ 0.549947184673 := by
    have h2 := sin_near (((4448449/24000000) : ℝ) * Real.pi) (0.582300576 : ℝ) (0.54994657569 : ℝ) (0.549947084036 : ℝ) (0.000000100637 : ℝ) hq8ec.1 hq8ec.2 hq8x
    exact ⟨by linarith only [h2.1], by linarith only [h2.2]⟩
  have hslat : (0.549946475053 : ℝ) ≤ Real.sin (toRadians 33.3633675) ∧ Real.sin (toRadians 33.3633675) ≤ 0.549947184673 := by
    rw [show toRadians (33.3633675 : ℝ) = ((4448449/24000000) : ℝ) * Real.pi by unfold toRadians; ring]
    exact hq8
  have hq9e0 : (0.036602678775 : ℝ) ≤ Real.sin (0.036610951 : ℝ) ∧ Real.sin (0.036610951 : ℝ) ≤ 0.036602865919 := by
    have h := sin_cubic_bounds (0.036610951 : ℝ) (by rw [abs_le]; constructor <;> norm_num)
    norm_num at h
    exact ⟨by linarith only [h.1, h.2], by linarith only [h.1, h.2]⟩
  have hq9e1 : (0.109611881676 : ℝ) ≤ Real.sin (3*(0.036610951 : ℝ)) ∧ Real.sin (3*(0.036610951 : ℝ)) ≤ 0.109612440102 := by
    rw [Real.sin_three_mul]
    constructor <;> nlinarith only [hq9e0.1, hq9e0.2, sq_nonneg (Real.sin (0.036610951 : ℝ)), sq_nonneg (Real.sin (0.036610951 : ℝ) - 0.036602772347)]
  have hq9e2 : (0.323567801201 : ℝ) ≤ Real.sin (3*(3*(0.036610951 : ℝ))) ∧ Real.sin (3*(3*(0.036610951 : ℝ))) ≤ 0.323569395971 := by
    rw [Real.sin_three_mul]
    constructor <;> nlinarith only [hq9e1.1, hq9e1.2, sq_nonneg (Real.sin (3*(0.036610951 : ℝ))), sq_nonneg (Real.sin (3*(0.036610951 : ℝ)) - 0.109612160889)]
  have hq9e3 : (0.835198227668 : ℝ) ≤ Real.sin (3*(3*(3*(0.036610951 : ℝ)))) ∧ Real.sin (3*(3*(3*(0.036610951 : ℝ)))) ≤ 0.835201008392 := by
    rw [Real.sin_three_mul]
    constructor <;> nlinarith only [hq9e2.1, hq9e2.2, sq_nonneg (Real.sin (3*(3*(0.036610951 : ℝ)))), sq_nonneg (Real.sin (3*(3*(0.036610951 : ℝ))) - 0.323568598586)]
  have hq9ec : (0.835198227668 : ℝ) ≤ Real.sin (0.988495677 : ℝ) ∧ Real.sin (0.988495677 : ℝ) ≤ 0.835201008392 := by
    rw [show (0.988495677 : ℝ) = (3*(3*(3*(0.036610951 : ℝ)))) by norm_num]
    exact hq9e3
  have hq9x : |(((7551551/24000000) : ℝ) * Real.pi) - (0.988495677 : ℝ)| ≤ 0.000000168285 := by
    rw [abs_le]
    constructor <;> nlinarith only [Real.pi_gt_d6, Real.pi_lt_d6]
  have hq9 : (0.835198059383 : ℝ) ≤ Real.sin (((7551551/24000000) : ℝ) * Real.pi) ∧ Real.sin (((7551551/24000000) : ℝ) * Real.pi) ≤ 0.835201176677 := by
    have h2 := sin_near (((7551551/24000000) : ℝ) * Real.pi) (0.988495677 : ℝ) (0.835198227668 : ℝ) (0.835201008392 : ℝ) (0.000000168285 : ℝ) hq9ec.1 hq9ec.2 hq9x
    exact ⟨by linarith only [h2.1], by linarith only [h2.2]⟩
  have hclat : (0.835198059383 : ℝ) ≤ Real.cos (toRadians 33.3633675) ∧ Real.cos (toRadians 33.3633675) ≤ 0.835201176677 := by
    rw [← Real.sin_pi_div_two_sub]
    rw [show Real.pi / 2 - toRadians (33.3633675 : ℝ) = ((7551551/24000000) : ℝ) * Real.pi by unfold toRadians; ring]
    exact hq9
  have hnum : (-0.085496325073 : ℝ) ≤ Real.sin (toRadians (-0.833 - 2.076 * Real.sqrt 1870 / 60)) - Real.sin (toRadians 33.3633675) * Observer.deltaSin ⟨none, 33.3633675, -116.8361345, 1870⟩ (Time.new 2024 9 10 3 0 0) ∧ Real.sin (toRadians (-0.833 - 2.076 * Real.sqrt 1870 / 60)) - Real.sin (toRadians 33.3633675) * Observer.deltaSin ⟨none, 33.3633675, -116.8361345, 1870⟩ (Time.new 2024 9 10 3 0 0) ≤ -0.085495437102 := by
    constructor <;> nlinarith only [hsalt.1, hsalt.2, hslat.1, hslat.2, hds.1, hds.2]
  have hden : (0.832415412469 : ℝ) ≤ Real.cos (toRadians 33.3633675) * Observer.deltaCos ⟨none, 33.3633675, -116.8361345, 1870⟩ (Time.new 2024 9 10 3 0 0) ∧ Real.cos (toRadians 33.3633675) * Observer.deltaCos ⟨none, 33.3633675, -116.8361345, 1870⟩ (Time.new 2024 9 10 3 0 0) ≤ 0.832418587029 := by
    constructor <;> nlinarith only [hclat.1, hclat.2, hdc.1, hdc.2]
  have hw0 : (-0.102708724265 : ℝ) ≤ Observer.w0Cos ⟨none, 33.3633675, -116.8361345, 1870⟩ (Time.new 2024 9 10 3 0 0) (-0.833) ∧ Observer.w0Cos ⟨none, 33.3633675, -116.8361345, 1870⟩ (Time.new 2024 9 10 3 0 0) (-0.833) ≤ -0.102707265832 := by
    unfold Observer.w0Cos
    rw [show (⟨none, 33.3633675, -116.8361345, 1870⟩ : Observer).elevation = (1870 : ℝ) from rfl,
        show (⟨none, 33.3633675, -116.8361345, 1870⟩ : Observer).lat = (33.3633675 : ℝ) from rfl]
    constructor
    · rw [le_div_iff₀ (by linarith only [hden.1])]
      nlinarith only [hnum.1, hden.1, hden.2]
    · rw [div_le_iff₀ (by linarith only [hden.1])]
      nlinarith only [hnum.2, hden.1, hden.2]
  have hqae0 : (-0.034287608818 : ℝ) ≤ Real.sin (-0.034294259 : ℝ) ∧ Real.sin (-0.034294259 : ℝ) ≤ -0.034287464733 := by
    have h := sin_cubic_bounds (-0.034294259 : ℝ) (by rw [abs_le]; constructor <;> norm_num)
    rw [show (-0.034294259 : ℝ) = -(0.034294259 : ℝ) by norm_num, Real.sin_neg] at h ⊢
    norm_num at h
    exact ⟨by linarith only [h.1, h.2], by linarith only [h.1, h.2]⟩
  have hqae1 : (-0.102701586902 : ℝ) ≤ Real.sin (3*(-0.034294259 : ℝ)) ∧ Real.sin (3*(-0.034294259 : ℝ)) ≤ -0.102701156676 := by
    rw [Real.sin_three_mul]
    constructor <;> nlinarith only [hqae0.1, hqae0.2, sq_nonneg (Real.sin (-0.034294259 : ℝ)), sq_nonneg (Real.sin (-0.034294259 : ℝ) - -0.0342875367755)]
  have hqaec : (-0.102701586902 : ℝ) ≤ Real.sin (-0.102882777 : ℝ) ∧ Real.sin (-0.102882777 : ℝ) ≤ -0.102701156676 := by
    rw [show (-0.102882777 : ℝ) = (3*(-0.034294259 : ℝ)) by norm_num]
    exact hqae1
  have hqax : |(Real.pi / 2 - (1.673679027 : ℝ)) - (-0.102882777 : ℝ)| ≤ 0.000000250001 := by
    rw [abs_le]
    constructor <;> nlinarith only [Real.pi_gt_d6, Real.pi_lt_d6]
  have hqa : (-0.102701836903 : ℝ) ≤ Real.sin (Real.pi / 2 - (1.673679027 : ℝ)) ∧ Real.sin (Real.pi / 2 - (1.673679027 : ℝ)) ≤ -0.102700906675 := by
    have h2 := sin_near (Real.pi / 2 - (1.673679027 : ℝ)) (-0.102882777 : ℝ) (-0.102701586902 : ℝ) (-0.102701156676 : ℝ) (0.000000250001 : ℝ) hqaec.1 hqaec.2 hqax
    exact ⟨by linarith only [h2.1], by linarith only [h2.2]⟩
  have hcosa : (-0.102701836903 : ℝ) ≤ Real.cos (1.673679027 : ℝ) ∧ Real.cos (1.673679027 : ℝ) ≤ -0.102700906675 := by
    rw [← Real.sin_pi_div_two_sub]
    exact hqa
  have hqbe0 : (-0.034292095215 : ℝ) ≤ Real.sin (-0.034298748 : ℝ) ∧ Real.sin (-0.034298748 : ℝ) ≤ -0.034291951055 := by
    have h := sin_cubic_bounds (-0.034298748 : ℝ) (by rw [abs_le]; constructor <;> norm_num)
    rw [show (-0.034298748 : ℝ) = -(0.034298748 : ℝ) by norm_num, Real.sin_neg] at h ⊢
    norm_num at h
    exact ⟨by linarith only [h.1, h.2], by linarith only [h.1, h.2]⟩
  have hqbe1 : (-0.102714982792 : ℝ) ≤ Real.sin (3*(-0.034298748 : ℝ)) ∧ Real.sin (3*(-0.034298748 : ℝ)) ≤ -0.102714552343 := by
    rw [Real.sin_three_mul]
    constructor <;> nlinarith only [hqbe0.1, hqbe0.2, sq_nonneg (Real.sin (-0.034298748 : ℝ)), sq_nonneg (Real.sin (-0.034298748 : ℝ) - -0.034292023135)]
  have hqbec : (-0.102714982792 : ℝ) ≤ Real.sin (-0.102896244 : ℝ) ∧ Real.sin (-0.102896244 : ℝ) ≤ -0.102714552343 := by
    rw [show (-0.102896244 : ℝ) = (3*(-0.034298748 : ℝ)) by norm_num]
    exact hqbe1
  have hqbx : |(Real.pi / 2 - (1.673692495 : ℝ)) - (-0.102896244 : ℝ)| ≤ 0.000000251001 := by
    rw [abs_le]
    constructor <;> nlinarith only [Real.pi_gt_d6, Real.pi_lt_d6]
  have hqb : (-0.102715233793 : ℝ) ≤ Real.sin (Real.pi / 2 - (1.673692495 : ℝ)) ∧ Real.sin (Real.pi / 2 - (1.673692495 : ℝ)) ≤ -0.102714301342 := by
    have h2 := sin_near (Real.pi / 2 - (1.673692495 : ℝ)) (-0.102896244 : ℝ) (-0.102714982792 : ℝ) (-0.102714552343 : ℝ) (0.000000251001 : ℝ) hqbec.1 hqbec.2 hqbx
    exact ⟨by linarith only [h2.1], by linarith only [h2.2]⟩
  have hcosb : (-0.102715233793 : ℝ) ≤ Real.cos (1.673692495 : ℝ) ∧ Real.cos (1.673692495 : ℝ) ≤ -0.102714301342 := by
    rw [← Real.sin_pi_div_two_sub]
    exact hqb
  have harc : (1.673679027 : ℝ) ≤ Real.arccos (Observer.w0Cos ⟨none, 33.3633675, -116.8361345, 1870⟩ (Time.new 2024 9 10 3 0 0) (-0.833)) ∧ Real.arccos (Observer.w0Cos ⟨none, 33.3633675, -116.8361345, 1870⟩ (Time.new 2024 9 10 3 0 0) (-0.833)) ≤ 1.673692495 := by
    apply arccos_bracket
    · linarith only [hw0.1]
    · linarith only [hw0.2]
    · norm_num
    · nlinarith only [Real.pi_gt_d6]
    · norm_num
    · nlinarith only [Real.pi_gt_d6]
    · linarith only [hw0.2, hcosa.1]
    · linarith only [hw0.1, hcosb.2]
  have hdeg : (95.894733932753 : ℝ) ≤ toDegrees (Real.arccos (Observer.w0Cos ⟨none, 33.3633675, -116.8361345, 1870⟩ (Time.new 2024 9 10 3 0 0) (-0.833))) ∧ toDegrees (Real.arccos (Observer.w0Cos ⟨none, 33.3633675, -116.8361345, 1870⟩ (Time.new 2024 9 10 3 0 0) (-0.833))) ≤ 95.895536116721 := by
    unfold toDegrees
    constructor
    · rw [le_div_iff₀ Real.pi_pos]
      nlinarith only [harc.1, Real.pi_lt_d6]
    · rw [div_le_iff₀ Real.pi_pos]
      nlinarith only [harc.2, Real.pi_gt_d6]
  have htr : (((Time.new 2024 9 10 13 22 1).to_jd : ℚ) : ℝ) = (212592734521/86400) := by
    rw [show (Time.new 2024 9 10 13 22 1).to_jd = ((212592734521/86400) : ℚ) by
      rw [to_jd_eq]; norm_num [jdnZ, secsZ, Time.new]]
    push_cast
    norm_num
  have hts : (((Time.new 2024 9 11 2 9 11).to_jd : ℚ) : ℝ) = (212592780551/86400) := by
    rw [show (Time.new 2024 9 11 2 9 11).to_jd = ((212592780551/86400) : ℚ) by
      rw [to_jd_eq]; norm_num [jdnZ, secsZ, Time.new]]
    push_cast
    norm_num
  refine ⟨rfl, ?_, ?_⟩
  · rw [htr, abs_le]
    constructor <;> linarith only [hjt.1, hjt.2, hdeg.1, hdeg.2]
  · rw [hts, abs_le]
    constructor <;> linarith only [hjt.1, hjt.2, hdeg.1, hdeg.2]

end Boom
